import Mathlib

/-!
Verification of the NERD bootstrap compiler (`src/bootstrap`), a compiler
from an English-word surface language to textual LLVM IR.

The development shallowly embeds the compiler's pipeline:

* `TokType`/`Token` and `lex` embed `src/bootstrap/src/lexer.c`
  (keyword table, comments, strings, numbers, newlines);
* `Expr`/`Stmt`/`Func`/`Program` embed the AST of
  `src/bootstrap/include/nerd.h`, and the `parse*` functions embed the
  recursive-descent parser of `src/bootstrap/src/parser.c` (fuel is used
  for termination; every concrete run is given ample fuel);
* `Line` is the per-`fprintf` embedding of the textual IR emitted by
  `src/bootstrap/src/codegen.c`: one constructor per distinct instruction
  format the emitter prints, keeping registers, label kinds/numbers and
  constants.  `codegenExpr`/`codegenStmt`/`codegenFunc` embed
  `codegen_expr`/`codegen_stmt`/`codegen_func`, threading the generator
  state (`CG`) exactly as the C code does (temp counter, label counter,
  flat per-function local-slot table, error diagnostics);
* `runLines` gives the emitted IR fragment its standard LLVM meaning,
  with `double` modelled by `ℚ` (exact for the integer-valued arithmetic
  the verified scenarios perform; IEEE-754 rounding and NaN do not arise
  in them);
* `cmdCompileExit`/`cmdRun` embed the driver control flow of
  `src/bootstrap/src/main.c`, with host effects (file opening, the
  external toolchain, the compiled binary) abstracted as an environment
  of step outcomes.

C idiosyncrasies that the embedding keeps: machine `double` literals in
the claims are small integers, so `ℚ` is exact; C `int` registers are
`Int` with `-1` as the failure sentinel, exactly as `codegen_expr`
returns it; the emitter keeps one flat local table per function whose
slot indices are list positions (`local_count`), with anonymous slots
(`none`) for `repeat` counters without an `as` name.
-/

namespace Nerd

/-- Token kinds, one constructor per `TOK_*` enumerator of
`src/bootstrap/include/nerd.h` (suffixes avoid Lean keywords). -/
inductive TokType where
  | fn | ret | typeK | ifK | elseK | orK | okK | errK | letK | callK
  | outK | doneK | repeatK | asK | whileK | negK | incK | decK
  | numK | intK | strK | boolK | voidK
  | plus | minus | times | over | modK
  | eqK | neqK | ltK | gtK | lteK | gteK | andK | notK
  | firstK | secondK | thirdK | fourthK
  | zeroW | oneW | twoW | threeW | fourW | fiveW | sixW | sevenW
  | eightW | nineW | tenW
  | math | listK | timeK | http | json
  | number | stringLit | ident
  | newline | eofK
  deriving DecidableEq, Repr

/-- A token: kind and lexeme text (source positions, used by the C code
only for diagnostics, are not modelled). -/
structure Token where
  t : TokType
  v : String
  deriving DecidableEq, Repr

/-- The keyword table of `lexer.c` (`keywords[]`), in source order. -/
def keywords : List (String × TokType) :=
  [("fn", .fn), ("ret", .ret), ("type", .typeK), ("if", .ifK),
   ("else", .elseK), ("or", .orK), ("ok", .okK), ("err", .errK),
   ("let", .letK), ("call", .callK), ("out", .outK), ("done", .doneK),
   ("repeat", .repeatK), ("as", .asK), ("while", .whileK),
   ("neg", .negK), ("inc", .incK), ("dec", .decK),
   ("num", .numK), ("int", .intK), ("str", .strK), ("bool", .boolK),
   ("void", .voidK),
   ("plus", .plus), ("minus", .minus), ("times", .times),
   ("over", .over), ("mod", .modK),
   ("eq", .eqK), ("neq", .neqK), ("lt", .ltK), ("gt", .gtK),
   ("lte", .lteK), ("gte", .gteK), ("and", .andK), ("not", .notK),
   ("first", .firstK), ("second", .secondK), ("third", .thirdK),
   ("fourth", .fourthK),
   ("zero", .zeroW), ("one", .oneW), ("two", .twoW), ("three", .threeW),
   ("four", .fourW), ("five", .fiveW), ("six", .sixW),
   ("seven", .sevenW), ("eight", .eightW), ("nine", .nineW),
   ("ten", .tenW),
   ("math", .math), ("list", .listK), ("time", .timeK),
   ("http", .http), ("json", .json)]

/-- `lookup_keyword`: first hit in the table, `TOK_IDENT` on miss. -/
def lookupKeyword (w : String) : TokType :=
  match keywords.find? (fun kv => kv.1 = w) with
  | some kv => kv.2
  | none => .ident

/-- `is_alpha` of `lexer.c`. -/
def isAlphaC (c : Char) : Bool :=
  ('a' ≤ c ∧ c ≤ 'z') ∨ ('A' ≤ c ∧ c ≤ 'Z') ∨ c = '_'

/-- `is_digit` of `lexer.c`. -/
def isDigitC (c : Char) : Bool := '0' ≤ c ∧ c ≤ '9'

/-- `is_alnum` of `lexer.c`. -/
def isAlnumC (c : Char) : Bool := isAlphaC c ∨ isDigitC c

/-- `lexer_scan_string`, value part: characters until the closing quote,
with the backslash-quote escape consuming two characters (both kept in
the lexeme, as in the C code).  Returns the lexeme and the number of
source characters consumed including the closing quote, or `none` for an
unterminated string (end of input or raw newline). -/
def scanString : List Char → Option (List Char × Nat)
  | [] => none
  | '"' :: _ => some ([], 1)
  | '\n' :: _ => none
  | '\\' :: '"' :: rest =>
    match scanString rest with
    | some (cs, n) => some ('\\' :: '"' :: cs, n + 2)
    | none => none
  | c :: rest =>
    match scanString rest with
    | some (cs, n) => some (c :: cs, n + 1)
    | none => none

/-- One step of `lexer_tokenize`'s scanning loop, fuelled.  Produces the
token list (terminated by an EOF token) or `none` on a lexical error. -/
def lexRun : Nat → List Char → List Token → Option (List Token)
  | 0, _, _ => none
  | _ + 1, [], acc => some (acc ++ [⟨.eofK, ""⟩])
  | fuel + 1, c :: rest, acc =>
    if c = ' ' ∨ c = '\t' ∨ c = '\r' then
      lexRun fuel rest acc
    else if c = '\n' then
      lexRun fuel rest (acc ++ [⟨.newline, "\\n"⟩])
    else if (c = '-' ∧ rest.head? = some '-') ∨ c = '#' then
      lexRun fuel (rest.dropWhile (· ≠ '\n')) acc
    else if c = '"' then
      match scanString rest with
      | some (cs, n) =>
        lexRun fuel (rest.drop n) (acc ++ [⟨.stringLit, String.mk cs⟩])
      | none => none
    else if isDigitC c then
      let intPart := (c :: rest).takeWhile isDigitC
      let rest1 := (c :: rest).drop intPart.length
      let lexeme :=
        match rest1 with
        | '.' :: d :: _ =>
          if isDigitC d then
            intPart ++ '.' :: (rest1.drop 1).takeWhile isDigitC
          else intPart
        | _ => intPart
      lexRun fuel ((c :: rest).drop lexeme.length)
        (acc ++ [⟨.number, String.mk lexeme⟩])
    else if isAlphaC c then
      let w := (c :: rest).takeWhile isAlnumC
      lexRun fuel ((c :: rest).drop w.length)
        (acc ++ [⟨lookupKeyword (String.mk w), String.mk w⟩])
    else
      none

/-- `lexer_tokenize` on a whole source string.  Each loop iteration
consumes at least one character, so `length + 1` fuel always suffices. -/
def lex (s : String) : Option (List Token) :=
  lexRun (s.length + 1) s.toList []


/-! ## Exact number representation

The compiler computes over C `double`.  Every numeric value the claims
below manipulate is a small integer, for which `double` arithmetic is
exact, so the embedding models `double` by exact fractions.  To keep
every operation reducible by Lean's kernel (`Rat`'s normalising
arithmetic is not), values are unnormalised fractions `QF` of an `Int`
numerator over a positive `Nat` denominator; `QF.toRat` maps them to
`ℚ`. -/

/-- An unnormalised fraction.  All constructions keep `d` positive. -/
structure QF where
  n : Int
  d : Nat
  deriving DecidableEq, Repr

instance (k : Nat) : OfNat QF k := ⟨⟨k, 1⟩⟩

/-- The rational value of a fraction. -/
def QF.toRat (q : QF) : ℚ := (q.n : ℚ) / (q.d : ℚ)

/-- Addition. -/
def QF.add (a b : QF) : QF := ⟨a.n * b.d + b.n * a.d, a.d * b.d⟩

/-- Subtraction. -/
def QF.sub (a b : QF) : QF := ⟨a.n * b.d - b.n * a.d, a.d * b.d⟩

/-- Multiplication. -/
def QF.mul (a b : QF) : QF := ⟨a.n * b.n, a.d * b.d⟩

/-- Division (0 when the divisor is 0, a case no verified scenario
reaches; the sign moves to the numerator to keep `d` positive). -/
def QF.div (a b : QF) : QF :=
  if b.n = 0 then ⟨0, 1⟩
  else ⟨a.n * (b.d : Int) * (if b.n < 0 then -1 else 1), a.d * b.n.natAbs⟩

/-- Comparisons by cross-multiplication (sound because `d` is kept
positive). -/
def QF.le (a b : QF) : Bool := a.n * (b.d : Int) ≤ b.n * (a.d : Int)

/-- Strict comparison. -/
def QF.lt (a b : QF) : Bool := a.n * (b.d : Int) < b.n * (a.d : Int)

/-- Value equality (not structural equality of representations). -/
def QF.eqv (a b : QF) : Bool := a.n * (b.d : Int) = b.n * (a.d : Int)

/-- Truncation towards zero (for `frem`, which C's `fmod` defines by
truncated division; no verified scenario performs a remainder). -/
def QF.trunc (a : QF) : Int := a.n.tdiv a.d

/-- `fmod`: `a - b * trunc (a / b)` (0 for a zero divisor). -/
def QF.rem (a b : QF) : QF :=
  if b.n = 0 then ⟨0, 1⟩
  else a.sub (b.mul ⟨(a.div b).trunc, 1⟩)

/-! ## Abstract syntax tree (`ASTNode` of `nerd.h`) -/

/-- Expressions.  `num` carries the `double` value as an exact fraction
(see `QF`).  Operator words are kept as strings, as the C tree does. -/
inductive Expr where
  | num (v : QF)
  | str (s : String)
  | bool (b : Bool)
  | var (name : String)
  | positional (idx : Nat)
  | binop (op : String) (l r : Expr)
  | unaryop (op : String) (e : Expr)
  | call (module : Option String) (fn : String) (args : List Expr)
  deriving Repr

/-- Statements.  `ifS`'s branches are optional (the C fields are nullable
pointers; the block parser can leave `then` empty).  `variant` of `ret`
is 0 = plain, 1 = ok, 2 = err, as in `nerd.h`. -/
inductive Stmt where
  | ret (variant : Nat) (value : Expr)
  | ifS (cond : Expr) (thenS : Option Stmt) (elseS : Option Stmt)
  | letS (name : String) (value : Expr)
  | exprStmt (e : Expr)
  | out (value : Expr)
  | repeatS (count : Expr) (varName : Option String) (body : List Stmt)
  | whileS (cond : Expr) (body : List Stmt)
  | inc (name : String) (amount : Option Expr)
  | dec (name : String) (amount : Option Expr)
  deriving Repr

/-- A function definition (`NODE_FUNC_DEF`): parameters are kept as their
names, as codegen uses them. -/
structure Func where
  name : String
  params : List String
  body : List Stmt
  deriving Repr

/-- A type definition (`NODE_TYPE_DEF`); the bootstrap parses but never
lowers these. -/
structure TypeDef where
  name : String
  isUnion : Bool
  deriving Repr

/-- A program (`NODE_PROGRAM`). -/
structure Program where
  types : List TypeDef
  funcs : List Func
  deriving Repr

/-- `stmt->type == NODE_RETURN`, the syntactic check codegen uses for
branch-arm and function termination. -/
def Stmt.isRet : Stmt → Bool
  | .ret _ _ => true
  | _ => false

/-! ## Emitted IR lines

One constructor per distinct `fprintf` instruction format in
`codegen.c`.  Registers are `Int` (the C `int` temp numbers, `-1` being
`codegen_expr`'s failure sentinel, which the C code happily prints as
`%t-1` in call argument lists). -/

/-- Label families used by `codegen_stmt`/`codegen_func`. -/
inductive LKind where
  | entry | thenL | elseL | endL
  | loopStart | loopBody | loopEnd
  | whileStart | whileBody | whileEnd
  deriving DecidableEq, Repr

/-- Arithmetic instruction mnemonics (`fadd`/`fsub`/`fmul`/`fdiv`/`frem`). -/
inductive FOp where
  | add | sub | mul | div | rem
  deriving DecidableEq, Repr

/-- Ordered comparison predicates emitted by the compiler. -/
inductive Cmp where
  | oeq | one | olt | ogt | ole | oge
  deriving DecidableEq, Repr

/-- One emitted line of IR text. -/
inductive Line where
  /-- `  ; ...` -/
  | comment (s : String)
  /-- `  %tr = fadd double 0.0, <lit>` (number, bool and string-expr lowering) -/
  | constF (r : Int) (v : QF)
  /-- `  %tr = fadd double 0.0, %arg<i>` (parameter / positional read) -/
  | copyArg (r : Int) (i : Nat)
  /-- `  %tr = load double, double* %local<l>` -/
  | loadLocal (r : Int) (l : Nat)
  /-- `  store double %tr, double* %local<l>` -/
  | storeLocal (r : Int) (l : Nat)
  /-- `  store double <lit>, double* %local<l>` (repeat counter init) -/
  | storeConst (v : QF) (l : Nat)
  /-- `  %local<l> = alloca double` -/
  | alloca (l : Nat)
  /-- `  %tr = f<op> double %ta, %tb` -/
  | arith (op : FOp) (r a b : Int)
  /-- `  %tr = fadd double %ta, 1.0` (repeat counter increment) -/
  | faddConst (r a : Int) (v : QF)
  /-- `  %tr = fsub double 0.0, %ta` (`neg` lowering) -/
  | fsubFromZero (r a : Int)
  /-- `  %tr = fcmp <p> double %ta, %tb` -/
  | fcmp (p : Cmp) (r a b : Int)
  /-- `  %tr = fcmp <p> double %ta, <lit>` (tests against `0.0`) -/
  | fcmpConst (p : Cmp) (r a : Int) (v : QF)
  /-- `  %tr = uitofp i1 %ta to double` -/
  | uitofp (r a : Int)
  /-- `  %tr = and i1 %ta, %tb` -/
  | iand (r a b : Int)
  /-- `  %tr = or i1 %ta, %tb` -/
  | ior (r a b : Int)
  /-- `  %tr = call double @<fn>(double %t..., ...)` -/
  | callUser (r : Int) (fn : String) (args : List Int)
  /-- `  %tr = call double @llvm.<..>.f64(...)` -/
  | callIntrinsic (r : Int) (fn : String) (args : List Int)
  /-- `  ret double %tr` -/
  | retReg (r : Int)
  /-- `  ret double 0.0` (synthetic function termination) -/
  | retConst (v : QF)
  /-- `  br label %<kind><n>` -/
  | brLabel (k : LKind) (n : Nat)
  /-- `  br i1 %tc, label %<k1><n1>, label %<k2><n2>` -/
  | condbr (c : Int) (k1 : LKind) (n1 : Nat) (k2 : LKind) (n2 : Nat)
  /-- `<kind><n>:` -/
  | label (k : LKind) (n : Nat)
  /-- `  %tr = getelementptr [<len> x i8], ... @.str<id>, ...` -/
  | gep (r : Int) (strId : Nat) (len : Nat)
  /-- `  call i32 (i8*, ...) @printf(@.fmt_str, i8* %tr)` -/
  | printStr (r : Int)
  /-- `  call i32 (i8*, ...) @printf(@.fmt_num, double %tr)` -/
  | printNum (r : Int)
  deriving DecidableEq, Repr

/-! ## Code generator state (`CodeGen` of `codegen.c`) -/

/-- Generator state.  `locals` is the flat per-function slot table:
position `i` is `%local<i>`; `none` marks the anonymous counter slot a
`repeat` without `as` reserves (`cg->local_count++`).  `errors` collects
the `fprintf(stderr, ...)` diagnostics. -/
structure CG where
  temp : Nat
  label : Nat
  strCounter : Nat
  params : List String
  locals : List (Option String)
  errors : List String
  deriving DecidableEq, Repr

/-- The zero-initialised generator (`codegen_create`). -/
def CG.init : CG := ⟨0, 0, 0, [], [], []⟩

/-- `next_temp`. -/
def CG.nextTemp (cg : CG) : Int × CG :=
  ((cg.temp : Int), { cg with temp := cg.temp + 1 })

/-- `next_label`. -/
def CG.nextLabel (cg : CG) : Nat × CG :=
  (cg.label, { cg with label := cg.label + 1 })

/-- `find_local`: index of the first named slot matching `name`. -/
def findLocal (locals : List (Option String)) (name : String) : Option Nat :=
  locals.findIdx? (fun o => o = some name)

/-- `find_param`: index of the first parameter matching `name`. -/
def findParam (params : List String) (name : String) : Option Nat :=
  params.findIdx? (fun p => p = name)

/-- Append an error diagnostic (the C code writes it to `stderr`). -/
def CG.addError (cg : CG) (msg : String) : CG :=
  { cg with errors := cg.errors ++ [msg] }

/-! ## Expression lowering (`codegen_expr`) -/

/-- The 1-argument `math` intrinsics recognised by `codegen_expr`
(`abs`→`llvm.fabs.f64`, etc.). -/
def mathIntrinsic1 (fn : String) : Option String :=
  if fn = "abs" then some "llvm.fabs.f64"
  else if fn = "sqrt" then some "llvm.sqrt.f64"
  else if fn = "floor" then some "llvm.floor.f64"
  else if fn = "ceil" then some "llvm.ceil.f64"
  else if fn = "sin" then some "llvm.sin.f64"
  else if fn = "cos" then some "llvm.cos.f64"
  else none

/-- The 2-argument `math` intrinsics recognised by `codegen_expr`. -/
def mathIntrinsic2 (fn : String) : Option String :=
  if fn = "min" then some "llvm.minnum.f64"
  else if fn = "max" then some "llvm.maxnum.f64"
  else if fn = "pow" then some "llvm.pow.f64"
  else none

/-- The comparison predicate for a comparison operator word, if any. -/
def cmpOfOp (op : String) : Option Cmp :=
  if op = "eq" then some .oeq
  else if op = "neq" then some .one
  else if op = "lt" then some .olt
  else if op = "gt" then some .ogt
  else if op = "lte" then some .ole
  else if op = "gte" then some .oge
  else none

/-- The arithmetic mnemonic for an arithmetic operator word, if any. -/
def fopOfOp (op : String) : Option FOp :=
  if op = "plus" then some .add
  else if op = "minus" then some .sub
  else if op = "times" then some .mul
  else if op = "over" then some .div
  else if op = "mod" then some .rem
  else none

mutual

/-- `codegen_expr`: returns the result register (`-1` on failure, as the
C code does), the updated generator state, and the emitted lines. -/
def codegenExpr (cg : CG) : Expr → Int × CG × List Line
  | .num v =>
    let (r, cg1) := cg.nextTemp
    (r, cg1, [.constF r v])
  | .str s =>
    let (r, cg1) := cg.nextTemp
    (r, cg1, [.comment ("string: \"" ++ s ++ "\""), .constF r 0])
  | .bool b =>
    let (r, cg1) := cg.nextTemp
    (r, cg1, [.constF r (if b then 1 else 0)])
  | .var name =>
    match findLocal cg.locals name with
    | some l =>
      let (r, cg1) := cg.nextTemp
      (r, cg1, [.loadLocal r l])
    | none =>
      match findParam cg.params name with
      | some i =>
        let (r, cg1) := cg.nextTemp
        (r, cg1, [.copyArg r i])
      | none =>
        (-1, cg.addError ("Error: Unknown variable '" ++ name ++ "'"), [])
  | .positional i =>
    let (r, cg1) := cg.nextTemp
    (r, cg1, [.copyArg r i])
  | .binop op l r =>
    let (lr, cg1, ll) := codegenExpr cg l
    let (rr, cg2, rl) := codegenExpr cg1 r
    if lr < 0 ∨ rr < 0 then (-1, cg2, ll ++ rl)
    else
      let (res, cg3) := cg2.nextTemp
      match fopOfOp op with
      | some fop => (res, cg3, ll ++ rl ++ [.arith fop res lr rr])
      | none =>
        match cmpOfOp op with
        | some p =>
          let (cmp, cg4) := cg3.nextTemp
          (res, cg4, ll ++ rl ++ [.fcmp p cmp lr rr, .uitofp res cmp])
        | none =>
          if op = "and" then
            let (lb, cg4) := cg3.nextTemp
            let (rb, cg5) := cg4.nextTemp
            let (ar, cg6) := cg5.nextTemp
            (res, cg6, ll ++ rl ++
              [.fcmpConst .one lb lr 0, .fcmpConst .one rb rr 0,
               .iand ar lb rb, .uitofp res ar])
          else if op = "or" then
            let (lb, cg4) := cg3.nextTemp
            let (rb, cg5) := cg4.nextTemp
            let (orr, cg6) := cg5.nextTemp
            (res, cg6, ll ++ rl ++
              [.fcmpConst .one lb lr 0, .fcmpConst .one rb rr 0,
               .ior orr lb rb, .uitofp res orr])
          else
            (-1, cg3.addError ("Error: Unknown operator '" ++ op ++ "'"),
             ll ++ rl)
  | .unaryop op e =>
    let (orr, cg1, ol) := codegenExpr cg e
    if orr < 0 then (-1, cg1, ol)
    else
      let (res, cg2) := cg1.nextTemp
      if op = "not" then
        let (b, cg3) := cg2.nextTemp
        (res, cg3, ol ++ [.fcmpConst .oeq b orr 0, .uitofp res b])
      else if op = "neg" then
        (res, cg2, ol ++ [.fsubFromZero res orr])
      else
        -- the C code falls through both branches and returns the fresh
        -- register without emitting anything
        (res, cg2, ol)
  | .call mod fn args =>
    let (res, cg1) := cg.nextTemp
    match mod with
    | none =>
      let (argRegs, cg2, al) := codegenArgs cg1 args
      (res, cg2,
       .comment ("call " ++ fn) :: al ++ [.callUser res fn argRegs])
    | some m =>
      let hd := Line.comment ("call " ++ m ++ "." ++ fn)
      if m = "math" then
        match args with
        | [] => (res, cg1, [hd, .constF res 0])
        | a0 :: argsRest =>
          let (r0, cg2, l0) := codegenExpr cg1 a0
          match mathIntrinsic1 fn with
          | some intr =>
            (res, cg2, hd :: l0 ++ [.callIntrinsic res intr [r0]])
          | none =>
            match argsRest with
            | [] => (res, cg2, hd :: l0 ++ [.constF res 0])
            | a1 :: _ =>
              let (r1, cg3, l1) := codegenExpr cg2 a1
              match mathIntrinsic2 fn with
              | some intr =>
                (res, cg3,
                 hd :: l0 ++ l1 ++ [.callIntrinsic res intr [r0, r1]])
              | none => (res, cg3, hd :: l0 ++ l1 ++ [.constF res 0])
      else
        (res, cg1, [hd, .constF res 0])

/-- The argument-evaluation loop of the user-call case of `codegen_expr`
(failed arguments contribute register `-1`, which the C code prints). -/
def codegenArgs (cg : CG) : List Expr → List Int × CG × List Line
  | [] => ([], cg, [])
  | a :: rest =>
    let (r, cg1, l1) := codegenExpr cg a
    let (rs, cg2, l2) := codegenArgs cg1 rest
    (r :: rs, cg2, l1 ++ l2)

end

/-! ## Statement lowering (`codegen_stmt`) -/

/-- `then_stmt->type == NODE_RETURN` where the pointer may be null (the C
code would dereference a null `then_stmt`; the claims never reach that
case, and the parser always fills `then` for the verified programs). -/
def stmtIsRetO : Option Stmt → Bool
  | some s => s.isRet
  | none => false

mutual

/-- `codegen_stmt`: updated state and emitted lines.  (The C function's
`result_reg` out-parameter is never written, so it is not modelled.) -/
def codegenStmt (cg : CG) : Stmt → CG × List Line
  | .ret _ e =>
    let (vr, cg1, el) := codegenExpr cg e
    if vr ≥ 0 then (cg1, el ++ [.retReg vr]) else (cg1, el)
  | .ifS cond thenS elseS =>
    let (cr, cg1, cl) := codegenExpr cg cond
    if cr < 0 then (cg1, cl)
    else
      let (b, cg2) := cg1.nextTemp
      let (lt, cg3) := cg2.nextLabel
      let (le, cg4) := cg3.nextLabel
      let (ln, cg5) := cg4.nextLabel
      match elseS with
      | some els =>
        let (cg6, tl) := codegenOptStmt cg5 thenS
        let brT : List Line :=
          if stmtIsRetO thenS then [] else [.brLabel .endL ln]
        let (cg7, el) := codegenStmt cg6 els
        let brE : List Line :=
          if els.isRet then [] else [.brLabel .endL ln]
        (cg7,
         cl ++ [.fcmpConst .one b cr 0,
                .condbr b .thenL lt .elseL le, .label .thenL lt] ++
         tl ++ brT ++ [.label .elseL le] ++ el ++ brE ++ [.label .endL ln])
      | none =>
        let (cg6, tl) := codegenOptStmt cg5 thenS
        let brT : List Line :=
          if stmtIsRetO thenS then [] else [.brLabel .endL ln]
        (cg6,
         cl ++ [.fcmpConst .one b cr 0,
                .condbr b .thenL lt .endL ln, .label .thenL lt] ++
         tl ++ brT ++ [.label .endL ln])
  | .letS name e =>
    let (vr, cg1, el) := codegenExpr cg e
    if vr < 0 then (cg1, el)
    else
      match findLocal cg1.locals name with
      | some l => (cg1, el ++ [.storeLocal vr l])
      | none =>
        let lid := cg1.locals.length
        ({ cg1 with locals := cg1.locals ++ [some name] },
         el ++ [.alloca lid, .storeLocal vr lid])
  | .exprStmt e =>
    let (_, cg1, el) := codegenExpr cg e
    (cg1, el)
  | .repeatS count varName body =>
    let (cr, cg1, cl) := codegenExpr cg count
    if cr < 0 then (cg1, cl)
    else
      let (ls, cg2) := cg1.nextLabel
      let (lb, cg3) := cg2.nextLabel
      let (le, cg4) := cg3.nextLabel
      let counterId := cg4.locals.length
      let cg5 : CG :=
        match varName with
        | some v => { cg4 with locals := cg4.locals ++ [some v] }
        | none => { cg4 with locals := cg4.locals ++ [none] }
      let (cv, cg6) := cg5.nextTemp
      let (cmp, cg7) := cg6.nextTemp
      let (cg8, bl) := codegenStmts cg7 body
      let (incLoad, cg9) := cg8.nextTemp
      let (incAdd, cg10) := cg9.nextTemp
      (cg10,
       cl ++ [.alloca counterId, .storeConst 1 counterId,
              .brLabel .loopStart ls, .label .loopStart ls,
              .loadLocal cv counterId, .fcmp .ole cmp cv cr,
              .condbr cmp .loopBody lb .loopEnd le, .label .loopBody lb] ++
       bl ++ [.loadLocal incLoad counterId, .faddConst incAdd incLoad 1,
              .storeLocal incAdd counterId, .brLabel .loopStart ls,
              .label .loopEnd le])
  | .whileS cond body =>
    let (ls, cg1) := cg.nextLabel
    let (lb, cg2) := cg1.nextLabel
    let (le, cg3) := cg2.nextLabel
    let (cr, cg4, cl) := codegenExpr cg3 cond
    if cr < 0 then
      (cg4, [.brLabel .whileStart ls, .label .whileStart ls] ++ cl)
    else
      let (b, cg5) := cg4.nextTemp
      let (cg6, bl) := codegenStmts cg5 body
      (cg6,
       [.brLabel .whileStart ls, .label .whileStart ls] ++ cl ++
       [.fcmpConst .one b cr 0,
        .condbr b .whileBody lb .whileEnd le, .label .whileBody lb] ++
       bl ++ [.brLabel .whileStart ls, .label .whileEnd le])
  | .inc name amount =>
    match findLocal cg.locals name with
    | none =>
      (cg.addError ("Error: Unknown variable '" ++ name ++ "' in inc"), [])
    | some l =>
      let (loadR, cg1) := cg.nextTemp
      let (ar, cg2, al) :=
        match amount with
        | some a => codegenExpr cg1 a
        | none =>
          let (t, cg') := cg1.nextTemp
          (t, cg', [Line.constF t 1])
      let (res, cg3) := cg2.nextTemp
      (cg3, [.loadLocal loadR l] ++ al ++
            [.arith .add res loadR ar, .storeLocal res l])
  | .dec name amount =>
    match findLocal cg.locals name with
    | none =>
      (cg.addError ("Error: Unknown variable '" ++ name ++ "' in dec"), [])
    | some l =>
      let (loadR, cg1) := cg.nextTemp
      let (ar, cg2, al) :=
        match amount with
        | some a => codegenExpr cg1 a
        | none =>
          let (t, cg') := cg1.nextTemp
          (t, cg', [Line.constF t 1])
      let (res, cg3) := cg2.nextTemp
      (cg3, [.loadLocal loadR l] ++ al ++
            [.arith .sub res loadR ar, .storeLocal res l])
  | .out e =>
    match e with
    | .str s =>
      let strId := cg.strCounter
      let cg1 := { cg with strCounter := cg.strCounter + 1 }
      let (ptr, cg2) := cg1.nextTemp
      (cg2, [.gep ptr strId (s.length + 1), .printStr ptr])
    | _ =>
      let (vr, cg1, el) := codegenExpr cg e
      if vr ≥ 0 then (cg1, el ++ [.printNum vr]) else (cg1, el)

/-- Lowering of a possibly-null statement pointer (`codegen_stmt` checks
`if (!node) return`). -/
def codegenOptStmt (cg : CG) : Option Stmt → CG × List Line
  | none => (cg, [])
  | some s => codegenStmt cg s

/-- Lowering of a statement list (loop bodies, function bodies). -/
def codegenStmts (cg : CG) : List Stmt → CG × List Line
  | [] => (cg, [])
  | s :: rest =>
    let (cg1, l1) := codegenStmt cg s
    let (cg2, l2) := codegenStmts cg1 rest
    (cg2, l1 ++ l2)

end

/-- `codegen_func`: clears locals and the temp counter (label and string
counters persist across functions, as in `clear_locals`), installs the
parameter names, emits the `entry` label, the body, and the synthetic
`ret double 0.0` when no top-level statement is a return. -/
def codegenFunc (cg : CG) (f : Func) : CG × List Line :=
  let cg0 : CG := { cg with temp := 0, locals := [], params := f.params }
  let (cg1, bl) := codegenStmts cg0 f.body
  let hasRet := f.body.any Stmt.isRet
  (cg1, .label .entry 0 :: bl ++ (if hasRet then [] else [.retConst 0]))

/-- `codegen_llvm` restricted to what the claims observe: the success
flag and the final generator state (with its diagnostics).  In the C
function the only `false` paths are failures to open the output file or
to allocate the generator, both abstracted by `openOk`; semantic
diagnostics printed during emission never affect the return value. -/
def codegenLLVM (openOk : Bool) (p : Program) : Bool × CG :=
  if openOk then
    (true, (p.funcs.foldl (fun cg f => (codegenFunc cg f).1) CG.init))
  else
    (false, CG.init)

/-- The IR lines of each function of a program, in emission order (state
threads through, so label numbers continue across functions). -/
def codegenProgramLines (p : Program) : List (List Line) :=
  (p.funcs.foldl
    (fun (acc : CG × List (List Line)) f =>
      let (cg', ls) := codegenFunc acc.1 f
      (cg', acc.2 ++ [ls]))
    (CG.init, [])).2

/-! ## Parser (`parser.c`)

The C parser mutates a cursor into the token array; the embedding
threads a `PState` and returns `none` where the C function returns
`NULL`.  All recursive functions take fuel (the C functions terminate on
the finite token array; concrete runs get ample fuel). -/

/-- Parser state (`Parser` of `nerd.h`). -/
structure PState where
  tokens : List Token
  pos : Nat
  deriving Repr

/-- The EOF sentinel the lexer always appends; reading past the end of
the array yields it (the C code indexes the array directly and relies on
the sentinel). -/
def eofTok : Token := ⟨.eofK, ""⟩

/-- `parser_current`. -/
def PState.cur (p : PState) : Token := p.tokens.getD p.pos eofTok

/-- `parser_check`. -/
def PState.check (p : PState) (t : TokType) : Bool := p.cur.t = t

/-- `parser_at_end`. -/
def PState.atEnd (p : PState) : Bool := p.cur.t = .eofK

/-- `parser_advance`: move past the current token unless at EOF, and
return the token before the new position. -/
def PState.advance (p : PState) : Token × PState :=
  let p' := if p.atEnd then p else { p with pos := p.pos + 1 }
  (p'.tokens.getD (p'.pos - 1) eofTok, p')

/-- `parser_match`. -/
def PState.matchT (p : PState) (t : TokType) : Bool × PState :=
  if p.check t then (true, (p.advance).2) else (false, p)

/-- `parser_expect`: the consumed token on success; on failure the C
code prints a diagnostic and returns `NULL` without advancing. -/
def PState.expect (p : PState) (t : TokType) : Option Token × PState :=
  if p.check t then
    let (tok, p') := p.advance
    (some tok, p')
  else (none, p)

/-- `parser_skip_newlines` (bounded by the remaining token count). -/
def PState.skipNewlines (p : PState) : PState :=
  let rec go : Nat → PState → PState
    | 0, q => q
    | n + 1, q =>
      let (m, q') := q.matchT .newline
      if m then go n q' else q'
  go (p.tokens.length + 1) p

/-- `parser_at_end_of_line`. -/
def PState.atEndOfLine (p : PState) : Bool :=
  p.check .newline ∨ p.check .eofK

/-- `is_module_token` of `parser.c`: the token kinds that begin a
module-qualified call.  (Note: the C list includes `TOK_STR` and
`TOK_ERR` besides the five module tokens.) -/
def isModuleToken (t : TokType) : Bool :=
  t = .math ∨ t = .strK ∨ t = .listK ∨
  t = .timeK ∨ t = .http ∨ t = .json ∨ t = .errK

/-- `is_end_of_expr` of `parser.c`: the boundary tokens at which call
argument parsing stops. -/
def isEndOfExpr (p : PState) : Bool :=
  p.atEndOfLine ∨
  (let t := p.cur.t
   t = .plus ∨ t = .minus ∨ t = .times ∨
   t = .over ∨ t = .modK ∨ t = .eqK ∨
   t = .neqK ∨ t = .ltK ∨ t = .gtK ∨
   t = .lteK ∨ t = .gteK ∨ t = .andK ∨
   t = .orK ∨ t = .ret ∨ t = .letK ∨
   t = .ifK ∨ t = .elseK ∨ t = .callK ∨
   t = .outK ∨ t = .doneK ∨ t = .repeatK ∨
   t = .times ∨ t = .asK ∨ t = .whileK)

/-- `is_number_word` (`TOK_ZERO ≤ t ≤ TOK_TEN`). -/
def isNumberWord (t : TokType) : Bool :=
  t = .zeroW ∨ t = .oneW ∨ t = .twoW ∨ t = .threeW ∨ t = .fourW ∨
  t = .fiveW ∨ t = .sixW ∨ t = .sevenW ∨ t = .eightW ∨ t = .nineW ∨
  t = .tenW

/-- `number_word_value`. -/
def numberWordValue (t : TokType) : QF :=
  match t with
  | .zeroW => 0 | .oneW => 1 | .twoW => 2 | .threeW => 3 | .fourW => 4
  | .fiveW => 5 | .sixW => 6 | .sevenW => 7 | .eightW => 8 | .nineW => 9
  | .tenW => 10 | _ => 0

/-- `is_positional`. -/
def isPositional (t : TokType) : Bool :=
  t = .firstK ∨ t = .secondK ∨ t = .thirdK ∨ t = .fourthK

/-- `positional_index`. -/
def positionalIndex (t : TokType) : Nat :=
  match t with
  | .firstK => 0 | .secondK => 1 | .thirdK => 2 | .fourthK => 3 | _ => 0

/-- `atof` restricted to the lexemes `lexer_scan_number` produces
(`[0-9]+(\.[0-9]+)?`): integer part plus decimal fraction, as an exact
fraction over a power of ten. -/
def atofQ (s : String) : QF :=
  let ds := s.toList
  let intPart := ds.takeWhile (· ≠ '.')
  let fracPart := (ds.dropWhile (· ≠ '.')).drop 1
  let toNat (cs : List Char) : Nat :=
    cs.foldl (fun n c => n * 10 + (c.toNat - '0'.toNat)) 0
  ⟨toNat intPart * 10 ^ fracPart.length + toNat fracPart,
   10 ^ fracPart.length⟩

/-- `parse_primary`. -/
def parsePrimary (p : PState) : Option (Expr × PState) :=
  if p.check .number then
    let (tok, p') := p.advance
    some (.num (atofQ tok.v), p')
  else if p.check .stringLit then
    let (tok, p') := p.advance
    some (.str tok.v, p')
  else if isNumberWord p.cur.t then
    let (tok, p') := p.advance
    some (.num (numberWordValue tok.t), p')
  else if isPositional p.cur.t then
    let (tok, p') := p.advance
    some (.positional (positionalIndex tok.t), p')
  else if p.check .ident ∧ p.cur.v = "true" then
    some (.bool true, (p.advance).2)
  else if p.check .ident ∧ p.cur.v = "false" then
    some (.bool false, (p.advance).2)
  else if p.check .ident then
    let (tok, p') := p.advance
    some (.var tok.v, p')
  else
    none

mutual

/-- `parse_call`. -/
def parseCall : Nat → PState → Option (Expr × PState)
  | 0, _ => none
  | fuel + 1, p =>
    let (isCall, p1) := p.matchT .callK
    if isCall then
      match p1.expect .ident with
      | (none, _) => none
      | (some funcTok, p2) =>
        match parseArgs fuel [] p2 with
        | none => none
        | some (args, p3) => some (.call none funcTok.v args, p3)
    else if isModuleToken p.cur.t then
      let (modTok, p1) := p.advance
      match p1.expect .ident with
      | (none, _) => none
      | (some funcTok, p2) =>
        match parseArgs fuel [] p2 with
        | none => none
        | some (args, p3) => some (.call (some modTok.v) funcTok.v args, p3)
    else
      parsePrimary p

/-- The argument loop of `parse_call` (`while (!is_end_of_expr(...))`). -/
def parseArgs : Nat → List Expr → PState → Option (List Expr × PState)
  | 0, _, _ => none
  | fuel + 1, acc, p =>
    if isEndOfExpr p then some (acc, p)
    else
      match parseUnary fuel p with
      | none => none
      | some (arg, p1) => parseArgs fuel (acc ++ [arg]) p1

/-- `parse_unary`. -/
def parseUnary : Nat → PState → Option (Expr × PState)
  | 0, _ => none
  | fuel + 1, p =>
    let (isNot, p1) := p.matchT .notK
    if isNot then
      match parseUnary fuel p1 with
      | none => none
      | some (operand, p2) => some (.unaryop "not" operand, p2)
    else
      let (isNeg, p1') := p.matchT .negK
      if isNeg then
        match parseUnary fuel p1' with
        | none => none
        | some (operand, p2) => some (.unaryop "neg" operand, p2)
      else
        parseCall fuel p

/-- `parse_multiplicative`. -/
def parseMultiplicative : Nat → PState → Option (Expr × PState)
  | 0, _ => none
  | fuel + 1, p =>
    match parseUnary fuel p with
    | none => none
    | some (left, p1) => parseMulLoop fuel left p1

/-- The `while` loop of `parse_multiplicative`. -/
def parseMulLoop : Nat → Expr → PState → Option (Expr × PState)
  | 0, _, _ => none
  | fuel + 1, left, p =>
    if p.check .times ∨ p.check .over ∨ p.check .modK then
      let (opTok, p1) := p.advance
      match parseUnary fuel p1 with
      | none => none
      | some (right, p2) =>
        parseMulLoop fuel (.binop opTok.v left right) p2
    else
      some (left, p)

/-- `parse_additive`. -/
def parseAdditive : Nat → PState → Option (Expr × PState)
  | 0, _ => none
  | fuel + 1, p =>
    match parseMultiplicative fuel p with
    | none => none
    | some (left, p1) => parseAddLoop fuel left p1

/-- The `while` loop of `parse_additive`. -/
def parseAddLoop : Nat → Expr → PState → Option (Expr × PState)
  | 0, _, _ => none
  | fuel + 1, left, p =>
    if p.check .plus ∨ p.check .minus then
      let (opTok, p1) := p.advance
      match parseMultiplicative fuel p1 with
      | none => none
      | some (right, p2) =>
        parseAddLoop fuel (.binop opTok.v left right) p2
    else
      some (left, p)

/-- `parse_comparison`. -/
def parseComparison : Nat → PState → Option (Expr × PState)
  | 0, _ => none
  | fuel + 1, p =>
    match parseAdditive fuel p with
    | none => none
    | some (left, p1) => parseCmpLoop fuel left p1

/-- The `while` loop of `parse_comparison`. -/
def parseCmpLoop : Nat → Expr → PState → Option (Expr × PState)
  | 0, _, _ => none
  | fuel + 1, left, p =>
    if p.check .eqK ∨ p.check .neqK ∨ p.check .ltK ∨ p.check .gtK ∨
       p.check .lteK ∨ p.check .gteK then
      let (opTok, p1) := p.advance
      match parseAdditive fuel p1 with
      | none => none
      | some (right, p2) =>
        parseCmpLoop fuel (.binop opTok.v left right) p2
    else
      some (left, p)

/-- `parse_and`. -/
def parseAnd : Nat → PState → Option (Expr × PState)
  | 0, _ => none
  | fuel + 1, p =>
    match parseComparison fuel p with
    | none => none
    | some (left, p1) => parseAndLoop fuel left p1

/-- The `while` loop of `parse_and`. -/
def parseAndLoop : Nat → Expr → PState → Option (Expr × PState)
  | 0, _, _ => none
  | fuel + 1, left, p =>
    let (m, p1) := p.matchT .andK
    if m then
      match parseComparison fuel p1 with
      | none => none
      | some (right, p2) =>
        parseAndLoop fuel (.binop "and" left right) p2
    else
      some (left, p)

/-- `parse_or`. -/
def parseOr : Nat → PState → Option (Expr × PState)
  | 0, _ => none
  | fuel + 1, p =>
    match parseAnd fuel p with
    | none => none
    | some (left, p1) => parseOrLoop fuel left p1

/-- The `while` loop of `parse_or` (the C condition also tests
`!parser_at_end_of_line`, redundant when the current token is `or`). -/
def parseOrLoop : Nat → Expr → PState → Option (Expr × PState)
  | 0, _, _ => none
  | fuel + 1, left, p =>
    if p.check .orK ∧ ¬p.atEndOfLine then
      let p1 := (p.advance).2
      match parseAnd fuel p1 with
      | none => none
      | some (right, p2) =>
        parseOrLoop fuel (.binop "or" left right) p2
    else
      some (left, p)

/-- `parse_expr`. -/
def parseExpr : Nat → PState → Option (Expr × PState)
  | 0, _ => none
  | fuel + 1, p => parseOr fuel p

end

/-- `is_type_token`. -/
def isTypeToken (t : TokType) : Bool :=
  t = .numK ∨ t = .intK ∨ t = .strK ∨ t = .boolK ∨ t = .voidK ∨ t = .listK

mutual

/-- `parse_inline_stmt` (statement after an inline `if` condition). -/
def parseInlineStmt : Nat → PState → Option (Stmt × PState)
  | 0, _ => none
  | fuel + 1, p =>
    let (isRetT, pR) := p.matchT .ret
    if isRetT then
      let (isOk, pO) := pR.matchT .okK
      let (variant, pV) :=
        if isOk then (1, pO)
        else
          let (isErr, pE) := pR.matchT .errK
          if isErr then (2, pE) else (0, pE)
      match parseExpr fuel pV with
      | none => none
      | some (v, pW) => some (.ret variant v, pW)
    else
      let (isOut, pU) := p.matchT .outK
      if isOut then
        match parseExpr fuel pU with
        | none => none
        | some (v, pW) => some (.out v, pW)
      else
        let (isLet, pL) := p.matchT .letK
        if isLet then
          match pL.expect .ident with
          | (none, _) => none
          | (some nameTok, pN) =>
            match parseExpr fuel pN with
            | none => none
            | some (v, pW) => some (.letS nameTok.v v, pW)
        else
          match parseExpr fuel p with
          | none => none
          | some (e, pW) => some (.exprStmt e, pW)

/-- `parse_stmt`. -/
def parseStmt : Nat → PState → Option (Stmt × PState)
  | 0, _ => none
  | fuel + 1, p =>
    let (isRetT, pR) := p.matchT .ret
    if isRetT then
      let (isOk, pO) := pR.matchT .okK
      let (variant, pV) :=
        if isOk then (1, pO)
        else
          let (isErr, pE) := pR.matchT .errK
          if isErr then (2, pE) else (0, pE)
      match parseExpr fuel pV with
      | none => none
      | some (v, pW) => some (.ret variant v, (pW.matchT .newline).2)
    else
    let (isOut, pOut) := p.matchT .outK
    if isOut then
      match parseExpr fuel pOut with
      | none => none
      | some (v, pW) => some (.out v, (pW.matchT .newline).2)
    else
    let (isInc, pInc) := p.matchT .incK
    if isInc then
      match pInc.expect .ident with
      | (none, _) => none
      | (some varTok, pN) =>
        -- the C code stores `parse_expr`'s result unchecked; a failing
        -- amount expression is modelled as overall failure (no claim
        -- exercises that path)
        if ¬pN.atEndOfLine then
          match parseExpr fuel pN with
          | none => none
          | some (a, pA) =>
            some (.inc varTok.v (some a), (pA.matchT .newline).2)
        else
          some (.inc varTok.v none, (pN.matchT .newline).2)
    else
    let (isDec, pDec) := p.matchT .decK
    if isDec then
      match pDec.expect .ident with
      | (none, _) => none
      | (some varTok, pN) =>
        if ¬pN.atEndOfLine then
          match parseExpr fuel pN with
          | none => none
          | some (a, pA) =>
            some (.dec varTok.v (some a), (pA.matchT .newline).2)
        else
          some (.dec varTok.v none, (pN.matchT .newline).2)
    else
    let (isIf, pIf) := p.matchT .ifK
    if isIf then
      match parseComparison fuel pIf with
      | none => none
      | some (cond, pC) =>
        if pC.check .newline then
          -- block form: if cond NEWLINE stmt* [else NEWLINE stmt*] done
          let pD := ((pC.matchT .newline).2).skipNewlines
          match parseStmtSeq fuel true [] pD with
          | none => none
          | some (thenList, pT) =>
            -- only the first statement of the block is retained
            let thenS := thenList.head?
            let (hasElse, pE) := pT.matchT .elseK
            if hasElse then
              let pF := ((pE.matchT .newline).2).skipNewlines
              if pF.check .ifK then
                -- else-if chain: the C code stores `parse_stmt`'s result
                -- unchecked; failure is modelled as overall failure
                match parseStmt fuel pF with
                | none => none
                | some (elseS, pG) =>
                  -- "else if doesn't need done"
                  if ¬pG.check .ifK then
                    let (_, pH) := pG.expect .doneK
                    some (.ifS cond thenS (some elseS),
                          (pH.matchT .newline).2)
                  else
                    some (.ifS cond thenS (some elseS), pG)
              else
                match parseStmtSeq fuel false [] pF with
                | none => none
                | some (elseList, pG) =>
                  let elseS := elseList.head?
                  if ¬pG.check .ifK then
                    let (_, pH) := pG.expect .doneK
                    some (.ifS cond thenS elseS, (pH.matchT .newline).2)
                  else
                    some (.ifS cond thenS elseS, pG)
            else
              if ¬pE.check .ifK then
                let (_, pF) := pE.expect .doneK
                some (.ifS cond thenS none, (pF.matchT .newline).2)
              else
                some (.ifS cond thenS none, pE)
        else
          -- inline form: if cond stmt [else stmt]
          match parseInlineStmt fuel pC with
          | none => none
          | some (thenS, pT) =>
            let (hasElse, pE) := pT.matchT .elseK
            if hasElse then
              if pE.check .ifK then
                match parseStmt fuel pE with
                | none => none
                | some (elseS, pG) =>
                  some (.ifS cond (some thenS) (some elseS), pG)
              else
                match parseInlineStmt fuel pE with
                | none => none
                | some (elseS, pG) =>
                  some (.ifS cond (some thenS) (some elseS),
                        (pG.matchT .newline).2)
            else
              some (.ifS cond (some thenS) none, (pE.matchT .newline).2)
    else
    let (isLet, pLet) := p.matchT .letK
    if isLet then
      match pLet.expect .ident with
      | (none, _) => none
      | (some nameTok, pN) =>
        match parseExpr fuel pN with
        | none => none
        | some (v, pW) => some (.letS nameTok.v v, (pW.matchT .newline).2)
    else
    let (isRepeat, pRep) := p.matchT .repeatK
    if isRepeat then
      match parsePrimary pRep with
      | none => none
      | some (count, pC) =>
        match pC.expect .times with
        | (none, _) => none
        | (some _, pT) =>
          let (hasAs, pA) := pT.matchT .asK
          let varName : Option (Option String × PState) :=
            if hasAs then
              match pA.expect .ident with
              | (none, _) => none
              | (some varTok, pB) => some (some varTok.v, pB)
            else some (none, pA)
          match varName with
          | none => none
          | some (vn, pB) =>
            let pD := ((pB.matchT .newline).2).skipNewlines
            match parseStmtSeq fuel false [] pD with
            | none => none
            | some (body, pE) =>
              match pE.expect .doneK with
              | (none, _) => none
              | (some _, pF) =>
                some (.repeatS count vn body, (pF.matchT .newline).2)
    else
    let (isWhile, pWh) := p.matchT .whileK
    if isWhile then
      match parseComparison fuel pWh with
      | none => none
      | some (cond, pC) =>
        let pD := ((pC.matchT .newline).2).skipNewlines
        match parseStmtSeq fuel false [] pD with
        | none => none
        | some (body, pE) =>
          match pE.expect .doneK with
          | (none, _) => none
          | (some _, pF) =>
            some (.whileS cond body, (pF.matchT .newline).2)
    else
      match parseExpr fuel p with
      | none => none
      | some (e, pW) => some (.exprStmt e, (pW.matchT .newline).2)

/-- The block statement loops of `parse_stmt`: collect statements until
`done` (and, for a then-branch, `else`) or end of input. -/
def parseStmtSeq :
    Nat → Bool → List Stmt → PState → Option (List Stmt × PState)
  | 0, _, _, _ => none
  | fuel + 1, stopElse, acc, p =>
    if p.atEnd ∨ (stopElse ∧ p.check .elseK) ∨ p.check .doneK then
      some (acc, p)
    else
      let (isNl, pN) := p.matchT .newline
      if isNl then parseStmtSeq fuel stopElse acc pN
      else
        match parseStmt fuel pN with
        | none => none
        | some (st, pS) =>
          parseStmtSeq fuel stopElse (acc ++ [st]) pS.skipNewlines

end

/-- The parameter loop of `parse_func_def`. -/
def parseParams (p : PState) : List String × PState :=
  let rec go : Nat → List String → PState → List String × PState
    | 0, acc, q => (acc, q)
    | n + 1, acc, q =>
      if ¬q.atEndOfLine ∧ q.check .ident then
        let (tok, qA) := q.advance
        go n (acc ++ [tok.v]) qA
      else (acc, q)
  go (p.tokens.length + 1) [] p

/-- The body loop of `parse_func_def` (statements until `fn`, `type`
or end of input). -/
def parseFuncBody :
    Nat → List Stmt → PState → Option (List Stmt × PState)
  | 0, _, _ => none
  | fuel + 1, acc, p =>
    if p.atEnd ∨ p.check .fn ∨ p.check .typeK then some (acc, p)
    else
      let (isNl, pN) := p.matchT .newline
      if isNl then parseFuncBody fuel acc pN
      else
        match parseStmt fuel pN with
        | none => none
        | some (st, pS) => parseFuncBody fuel (acc ++ [st]) pS.skipNewlines

/-- `parse_func_def`. -/
def parseFuncDef (fuel : Nat) (p : PState) : Option (Func × PState) :=
  let (_, pF) := p.expect .fn
  match pF.expect .ident with
  | (none, _) => none
  | (some nameTok, pN) =>
    let (params, pP) := parseParams pN
    let pB := ((pP.matchT .newline).2).skipNewlines
    match parseFuncBody fuel [] pB with
    | none => none
    | some (body, pE) => some (⟨nameTok.v, params, body⟩, pE)

/-- The struct-field loop of `parse_type_def` (fields are skipped). -/
def parseTypeFields (p : PState) : PState :=
  let rec go : Nat → PState → PState
    | 0, q => q
    | n + 1, q =>
      if ¬q.atEndOfLine then
        if isTypeToken q.cur.t ∨ q.check .ident then
          go n (q.advance).2
        else q
      else q
  go (p.tokens.length + 1) p

/-- `parse_type_def` (the `or`/`err` `parser_expect` results are ignored
by the C code, which continues regardless). -/
def parseTypeDef (p : PState) : Option (TypeDef × PState) :=
  let (_, pT) := p.expect .typeK
  match pT.expect .ident with
  | (none, _) => none
  | (some nameTok, pN) =>
    let (isOk, pO) := pN.matchT .okK
    if isOk then
      let pA := if isTypeToken pO.cur.t then (pO.advance).2 else pO
      let (_, pB) := pA.expect .orK
      let (_, pC) := pB.expect .errK
      let pD := if isTypeToken pC.cur.t then (pC.advance).2 else pC
      some (⟨nameTok.v, true⟩, (pD.matchT .newline).2)
    else
      let pA := parseTypeFields pO
      some (⟨nameTok.v, false⟩, (pA.matchT .newline).2)

/-- The top-level loop of `parser_parse`. -/
def parseTop :
    Nat → List TypeDef → List Func → PState → Option Program
  | 0, _, _, _ => none
  | fuel + 1, types, funcs, p =>
    if p.atEnd then some ⟨types, funcs⟩
    else if p.check .typeK then
      match parseTypeDef p with
      | none => none
      | some (td, pN) => parseTop fuel (types ++ [td]) funcs pN.skipNewlines
    else if p.check .fn then
      match parseFuncDef fuel p with
      | none => none
      | some (fd, pN) => parseTop fuel types (funcs ++ [fd]) pN.skipNewlines
    else
      let (isNl, pN) := p.matchT .newline
      if isNl then parseTop fuel types funcs pN
      else none

/-- `parser_parse`. -/
def parserParse (fuel : Nat) (tokens : List Token) : Option Program :=
  parseTop fuel [] [] (PState.skipNewlines ⟨tokens, 0⟩)

/-- The front half of each driver command: lex then parse.  Fuel is the
square of the token count plus a margin, far beyond what the
recursive-descent parser can consume. -/
def frontend (src : String) : Option Program :=
  match lex src with
  | none => none
  | some toks => parserParse ((toks.length + 2) * (toks.length + 2)) toks

/-! ## Semantics of the emitted IR

The emitted fragment is given its standard LLVM meaning over exact
fractions (`QF`; see above).  `i1` values live in the same register
file as 0/1. -/

/-- Meaning of an arithmetic mnemonic. -/
def FOp.eval : FOp → QF → QF → QF
  | .add, a, b => a.add b
  | .sub, a, b => a.sub b
  | .mul, a, b => a.mul b
  | .div, a, b => a.div b
  | .rem, a, b => a.rem b

/-- Meaning of an ordered comparison predicate (exact rationals have no
NaN, so the ordered/unordered distinction is vacuous here). -/
def Cmp.holds : Cmp → QF → QF → Bool
  | .oeq, a, b => a.eqv b
  | .one, a, b => ¬a.eqv b
  | .olt, a, b => a.lt b
  | .ogt, a, b => b.lt a
  | .ole, a, b => a.le b
  | .oge, a, b => b.le a

/-- Index of a label line in the emitted lines. -/
def findLabel (lines : List Line) (k : LKind) (n : Nat) : Option Nat :=
  lines.findIdx? (fun l => l = Line.label k n)

/-- A register file, `%t<i> = v`: lookup walks the write history, most
recent first; unwritten registers read 0. -/
def lookupI : List (Int × QF) → Int → QF
  | [], _ => 0
  | (k, v) :: rest, i => if i = k then v else lookupI rest i

/-- The `%local` slots, same representation. -/
def lookupN : List (Nat × QF) → Nat → QF
  | [], _ => 0
  | (k, v) :: rest, i => if i = k then v else lookupN rest i

/-- Small-step execution of the emitted lines of one function, fuelled:
`regs` is the `%t` register file, `locals` the `%local` slots, `args`
the `%arg` values.  `none` means stuck (missing label, uninterpreted
call, or out of fuel); `some v` is a `ret` with value `v`.  `printf`
calls and comments are skipped; user and intrinsic calls are not
interpreted (no verified scenario executes them). -/
def runLines (lines : List Line) (args : List QF) :
    Nat → Nat → List (Int × QF) → List (Nat × QF) → Option QF
  | 0, _, _, _ => none
  | fuel + 1, pc, regs, locals =>
    match lines.get? pc with
    | none => none
    | some line =>
      match line with
      | .comment _ => runLines lines args fuel (pc + 1) regs locals
      | .constF r v => runLines lines args fuel (pc + 1)
          ((r, QF.add 0 v) :: regs) locals
      | .copyArg r k => runLines lines args fuel (pc + 1)
          ((r, QF.add 0 (args.getD k 0)) :: regs) locals
      | .loadLocal r l => runLines lines args fuel (pc + 1)
          ((r, lookupN locals l) :: regs) locals
      | .storeLocal r l => runLines lines args fuel (pc + 1) regs
          ((l, lookupI regs r) :: locals)
      | .storeConst v l => runLines lines args fuel (pc + 1) regs
          ((l, v) :: locals)
      | .alloca _ => runLines lines args fuel (pc + 1) regs locals
      | .arith op r a b => runLines lines args fuel (pc + 1)
          ((r, op.eval (lookupI regs a) (lookupI regs b)) :: regs) locals
      | .faddConst r a v => runLines lines args fuel (pc + 1)
          ((r, (lookupI regs a).add v) :: regs) locals
      | .fsubFromZero r a => runLines lines args fuel (pc + 1)
          ((r, QF.sub 0 (lookupI regs a)) :: regs) locals
      | .fcmp p r a b => runLines lines args fuel (pc + 1)
          ((r, if p.holds (lookupI regs a) (lookupI regs b) then 1 else 0)
            :: regs) locals
      | .fcmpConst p r a v => runLines lines args fuel (pc + 1)
          ((r, if p.holds (lookupI regs a) v then 1 else 0) :: regs) locals
      | .uitofp r a => runLines lines args fuel (pc + 1)
          ((r, lookupI regs a) :: regs) locals
      | .iand r a b => runLines lines args fuel (pc + 1)
          ((r, if ¬(lookupI regs a).eqv 0 ∧ ¬(lookupI regs b).eqv 0
               then 1 else 0) :: regs) locals
      | .ior r a b => runLines lines args fuel (pc + 1)
          ((r, if ¬(lookupI regs a).eqv 0 ∨ ¬(lookupI regs b).eqv 0
               then 1 else 0) :: regs) locals
      | .callUser _ _ _ => none
      | .callIntrinsic _ _ _ => none
      | .retReg r => some (lookupI regs r)
      | .retConst v => some v
      | .brLabel k n =>
        match findLabel lines k n with
        | none => none
        | some i => runLines lines args fuel i regs locals
      | .condbr c k1 n1 k2 n2 =>
        match (if ¬(lookupI regs c).eqv 0 then findLabel lines k1 n1
               else findLabel lines k2 n2) with
        | none => none
        | some i => runLines lines args fuel i regs locals
      | .label _ _ => runLines lines args fuel (pc + 1) regs locals
      | .gep r _ _ => runLines lines args fuel (pc + 1) ((r, 0) :: regs) locals
      | .printStr _ => runLines lines args fuel (pc + 1) regs locals
      | .printNum _ => runLines lines args fuel (pc + 1) regs locals

/-- Execute the emitted code of one function on argument values. -/
def execFunc (f : Func) (args : List QF) (fuel : Nat) : Option QF :=
  runLines (codegenFunc CG.init f).2 args fuel 0 [] []

/-! ## Basic-block discipline

A basic block of the emitted text runs from a label to the next label.
The property of interest (spec §8.6) is: every block ends with exactly
one terminator instruction (branch or return), i.e. no instruction
follows a terminator within a block, no block holds two terminators,
and no block (including the final one) falls off the end without one.
It is checked by a three-state automaton over the emitted lines;
comment lines are not instructions and are skipped. -/

/-- Label lines. -/
def Line.isLabel : Line → Bool
  | .label _ _ => true
  | _ => false

/-- Terminator instructions: branches and returns. -/
def Line.isTerminator : Line → Bool
  | .retReg _ => true
  | .retConst _ => true
  | .brLabel _ _ => true
  | .condbr _ _ _ _ _ => true
  | _ => false

/-- Comment lines (not instructions). -/
def Line.isComment : Line → Bool
  | .comment _ => true
  | _ => false

/-- Automaton state: the current block is open (no terminator yet),
closed (just terminated), or the discipline is already violated. -/
inductive BState where
  | bOpen | bClosed | bBad
  deriving DecidableEq, Repr

/-- One automaton step. -/
def termStep (st : BState) (l : Line) : BState :=
  if l.isComment then st
  else
    match st with
    | .bBad => .bBad
    | .bClosed => if l.isLabel then .bOpen else .bBad
    | .bOpen =>
      if l.isLabel then .bBad
      else if l.isTerminator then .bClosed else .bOpen

/-- Run the automaton over emitted lines. -/
def runAuto (st : BState) (ls : List Line) : BState := ls.foldl termStep st

/-- Every basic block of the emitted lines ends with exactly one
terminator: starting before the leading `entry:` label (state
`bClosed`), the automaton never faults and finishes with the last block
terminated. -/
def wellTerminated (ls : List Line) : Bool := runAuto .bClosed ls = .bClosed

/-! ## Well-structured statements

The syntactic condition under which the emitter's output keeps the
basic-block discipline: a return may appear only as an `if`-branch arm
or as the final statement of the function body — never inside a loop
body and never followed by further statements in the same block. -/

mutual

/-- Statements whose lowering, started in an open block, leaves the
block discipline intact and the current block open. -/
def wsStmt : Stmt → Bool
  | .ret _ _ => false
  | .ifS _ t e =>
    wsArmO t && (match e with
                 | none => true
                 | some s => wsStmt s || s.isRet)
  | .letS _ _ => true
  | .exprStmt _ => true
  | .out _ => true
  | .inc _ _ => true
  | .dec _ _ => true
  | .repeatS _ _ body => wsStmts body
  | .whileS _ body => wsStmts body

/-- An `if` arm: absent, well-structured, or a return. -/
def wsArmO : Option Stmt → Bool
  | none => true
  | some s => wsStmt s || s.isRet

/-- A loop body: all statements well-structured (no direct return). -/
def wsStmts : List Stmt → Bool
  | [] => true
  | s :: rest => wsStmt s && wsStmts rest

end

/-- A function body: well-structured statements, with a return allowed
only in the final position. -/
def wsBody : List Stmt → Bool
  | [] => true
  | [s] => wsStmt s || s.isRet
  | s :: rest => wsStmt s && wsBody rest

/-! ## Driver control flow (`main.c`) -/

/-- `cmd_compile`'s in-process pipeline (reading the input file is
assumed to succeed; `openOk = true` models a writable output path):
exit status 1 when lexing or parsing fails or `codegen_llvm` returns
false, and 0 when `codegen_llvm` returns true — note that emission
diagnostics do not affect `codegen_llvm`'s return value. -/
def cmdCompileExit (src : String) : Int :=
  match frontend src with
  | none => 1
  | some p => if (codegenLLVM true p).1 then 0 else 1

/-- The emission diagnostics produced while compiling a program. -/
def codegenErrors (p : Program) : List String := (codegenLLVM true p).2.errors

/-- The outcomes of the host-environment steps `cmd_run` performs, in
program order: reading the source, lexing, parsing, `codegen_llvm`'s
`fopen` of the IR file, `fopen` of the entry-routine file, the `cat`
combining command, the `clang` invocation, and the exit status of the
compiled binary. -/
structure RunEnv where
  readOk : Bool
  lexOk : Bool
  parseOk : Bool
  codegenOpenOk : Bool
  mainOpenOk : Bool
  catOk : Bool
  clangOk : Bool
  binStatus : Int

/-- The four temporary files of run mode, in the order `cmd_run`
removes them. -/
def runTempFiles : List String :=
  ["/tmp/nerd_out.ll", "/tmp/nerd_main.ll", "/tmp/nerd_combined.ll",
   "/tmp/nerd_run"]

/-- `cmd_run`'s control flow: every early `return 1` leaves without
removing anything; only the path that reaches `system(tmp_bin)` removes
the four temporary files (and then propagates the binary's status). -/
def cmdRun (env : RunEnv) : Int × List String :=
  if ¬env.readOk then (1, [])
  else if ¬env.lexOk then (1, [])
  else if ¬env.parseOk then (1, [])
  else if ¬env.codegenOpenOk then (1, [])
  else if ¬env.mainOpenOk then (1, [])
  else if ¬env.catOk then (1, [])
  else if ¬env.clangOk then (1, [])
  else (env.binStatus, runTempFiles)

/-! ## Concrete scenario programs

Each scenario is staged: the token list (proved from the source text by
kernel evaluation of the lexer), the parsed program, the emitted lines,
and where relevant the execution result of the emitted code.  The
parser and emitter stages are established by symbolic evaluation. -/

/-- Scenario S4 of the spec. -/
def srcS4 : String := "fn g x\nif x gt zero ret ok x else ret err zero\n"

/-- The token list of S4. -/
def toksS4 : List Token :=
  [⟨.fn, "fn"⟩, ⟨.ident, "g"⟩, ⟨.ident, "x"⟩, ⟨.newline, "\\n"⟩,
   ⟨.ifK, "if"⟩, ⟨.ident, "x"⟩, ⟨.gtK, "gt"⟩, ⟨.zeroW, "zero"⟩,
   ⟨.ret, "ret"⟩, ⟨.okK, "ok"⟩, ⟨.ident, "x"⟩, ⟨.elseK, "else"⟩,
   ⟨.ret, "ret"⟩, ⟨.errK, "err"⟩, ⟨.zeroW, "zero"⟩, ⟨.newline, "\\n"⟩,
   ⟨.eofK, ""⟩]

/-- The S4 function: one `if` with a `ret ok` then-arm and a `ret err`
else-arm. -/
def funcS4 : Func :=
  ⟨"g", ["x"],
   [.ifS (.binop "gt" (.var "x") (.num 0))
      (some (.ret 1 (.var "x")))
      (some (.ret 2 (.num 0)))]⟩

/-- The S4 program. -/
def progS4 : Program := ⟨[], [funcS4]⟩

/-- The lines emitted for S4: both arms end in `ret`, neither branches
to `end2`, yet the `end2:` label is emitted and receives the synthetic
`ret double 0.0`. -/
def linesS4 : List Line :=
  [.label .entry 0,
   .copyArg 0 0, .constF 1 0, .fcmp .ogt 3 0 1, .uitofp 2 3,
   .fcmpConst .one 4 2 0,
   .condbr 4 .thenL 0 .elseL 1,
   .label .thenL 0, .copyArg 5 0, .retReg 5,
   .label .elseL 1, .constF 6 0, .retReg 6,
   .label .endL 2,
   .retConst 0]

theorem lex_S4 : lex srcS4 = some toksS4 := by decide

set_option maxHeartbeats 2000000 in
theorem parse_S4 : parserParse 361 toksS4 = some progS4 := by
  simp [parserParse, parseTop, parseFuncDef, parseFuncBody, parseParams,
    parseParams.go, parseStmt, parseStmtSeq, parseInlineStmt, parseExpr,
    parseOr, parseOrLoop, parseAnd, parseAndLoop, parseComparison,
    parseCmpLoop, parseAdditive, parseAddLoop, parseMultiplicative,
    parseMulLoop, parseUnary, parseCall, parseArgs, parsePrimary,
    PState.matchT, PState.check, PState.cur, PState.advance, PState.atEnd,
    PState.expect, PState.skipNewlines, PState.skipNewlines.go,
    PState.atEndOfLine, isEndOfExpr, isModuleToken, isNumberWord,
    isPositional, numberWordValue, positionalIndex, atofQ, eofTok,
    isTypeToken, parseTypeDef, parseTypeFields, toksS4, progS4, funcS4]

theorem frontend_S4 : frontend srcS4 = some progS4 := by
  have h : toksS4.length = 17 := by decide
  simp [frontend, lex_S4, h, parse_S4]

set_option maxHeartbeats 2000000 in
theorem codegen_S4 :
    codegenFunc CG.init funcS4 =
      (⟨7, 3, 0, ["x"], [], []⟩, linesS4) := by
  simp [codegenFunc, codegenStmts, codegenStmt, codegenExpr, codegenArgs,
    codegenOptStmt, CG.nextTemp, CG.nextLabel, CG.addError, CG.init,
    findLocal, findParam, stmtIsRetO, Stmt.isRet, funcS4, linesS4,
    fopOfOp, cmpOfOp, mathIntrinsic1, mathIntrinsic2]

/-- Scenario S3 of the spec. -/
def srcS3 : String :=
  "fn f n\nlet s zero\nrepeat n times as i\ninc s i\ndone\nret s\n"

/-- The token list of S3. -/
def toksS3 : List Token :=
  [⟨.fn, "fn"⟩, ⟨.ident, "f"⟩, ⟨.ident, "n"⟩, ⟨.newline, "\\n"⟩,
   ⟨.letK, "let"⟩, ⟨.ident, "s"⟩, ⟨.zeroW, "zero"⟩, ⟨.newline, "\\n"⟩,
   ⟨.repeatK, "repeat"⟩, ⟨.ident, "n"⟩, ⟨.times, "times"⟩,
   ⟨.asK, "as"⟩, ⟨.ident, "i"⟩, ⟨.newline, "\\n"⟩,
   ⟨.incK, "inc"⟩, ⟨.ident, "s"⟩, ⟨.ident, "i"⟩, ⟨.newline, "\\n"⟩,
   ⟨.doneK, "done"⟩, ⟨.newline, "\\n"⟩,
   ⟨.ret, "ret"⟩, ⟨.ident, "s"⟩, ⟨.newline, "\\n"⟩, ⟨.eofK, ""⟩]

/-- The S3 function: triangular sum via a `repeat` loop. -/
def funcS3 : Func :=
  ⟨"f", ["n"],
   [.letS "s" (.num 0),
    .repeatS (.var "n") (some "i") [.inc "s" (some (.var "i"))],
    .ret 0 (.var "s")]⟩

/-- The S3 program. -/
def progS3 : Program := ⟨[], [funcS3]⟩

/-- The lines emitted for S3. -/
def linesS3 : List Line :=
  [.label .entry 0,
   .constF 0 0, .alloca 0, .storeLocal 0 0,
   .copyArg 1 0, .alloca 1, .storeConst 1 1,
   .brLabel .loopStart 0, .label .loopStart 0,
   .loadLocal 2 1, .fcmp .ole 3 2 1,
   .condbr 3 .loopBody 1 .loopEnd 2, .label .loopBody 1,
   .loadLocal 4 0, .loadLocal 5 1, .arith .add 6 4 5, .storeLocal 6 0,
   .loadLocal 7 1, .faddConst 8 7 1, .storeLocal 8 1,
   .brLabel .loopStart 0, .label .loopEnd 2,
   .loadLocal 9 0, .retReg 9]

theorem lex_S3 : lex srcS3 = some toksS3 := by decide

set_option maxHeartbeats 2000000 in
theorem parse_S3 : parserParse 676 toksS3 = some progS3 := by
  simp [parserParse, parseTop, parseFuncDef, parseFuncBody, parseParams,
    parseParams.go, parseStmt, parseStmtSeq, parseInlineStmt, parseExpr,
    parseOr, parseOrLoop, parseAnd, parseAndLoop, parseComparison,
    parseCmpLoop, parseAdditive, parseAddLoop, parseMultiplicative,
    parseMulLoop, parseUnary, parseCall, parseArgs, parsePrimary,
    PState.matchT, PState.check, PState.cur, PState.advance, PState.atEnd,
    PState.expect, PState.skipNewlines, PState.skipNewlines.go,
    PState.atEndOfLine, isEndOfExpr, isModuleToken, isNumberWord,
    isPositional, numberWordValue, positionalIndex, atofQ, eofTok,
    isTypeToken, parseTypeDef, parseTypeFields, toksS3, progS3, funcS3]

theorem frontend_S3 : frontend srcS3 = some progS3 := by
  have h : toksS3.length = 24 := by decide
  simp [frontend, lex_S3, h, parse_S3]

set_option maxHeartbeats 2000000 in
theorem codegen_S3 :
    codegenFunc CG.init funcS3 =
      (⟨10, 3, 0, ["n"], [some "s", some "i"], []⟩, linesS3) := by
  simp [codegenFunc, codegenStmts, codegenStmt, codegenExpr, codegenArgs,
    codegenOptStmt, CG.nextTemp, CG.nextLabel, CG.addError, CG.init,
    findLocal, findParam, stmtIsRetO, Stmt.isRet, funcS3, linesS3,
    fopOfOp, cmpOfOp, mathIntrinsic1, mathIntrinsic2]

theorem run_S3 : runLines linesS3 [5] 300 0 [] [] = some 15 := by decide

/-- The count-reassignment scenario: the loop count is the variable `k`
(value 3 at loop entry); the body immediately rebinds `k` to 10. -/
def srcD9 : String :=
  "fn f\nlet k three\nlet s zero\nrepeat k times\nlet k ten\ninc s one\ndone\nret s\n"

/-- The token list of the count-reassignment scenario. -/
def toksD9 : List Token :=
  [⟨.fn, "fn"⟩, ⟨.ident, "f"⟩, ⟨.newline, "\\n"⟩,
   ⟨.letK, "let"⟩, ⟨.ident, "k"⟩, ⟨.threeW, "three"⟩, ⟨.newline, "\\n"⟩,
   ⟨.letK, "let"⟩, ⟨.ident, "s"⟩, ⟨.zeroW, "zero"⟩, ⟨.newline, "\\n"⟩,
   ⟨.repeatK, "repeat"⟩, ⟨.ident, "k"⟩, ⟨.times, "times"⟩,
   ⟨.newline, "\\n"⟩,
   ⟨.letK, "let"⟩, ⟨.ident, "k"⟩, ⟨.tenW, "ten"⟩, ⟨.newline, "\\n"⟩,
   ⟨.incK, "inc"⟩, ⟨.ident, "s"⟩, ⟨.oneW, "one"⟩, ⟨.newline, "\\n"⟩,
   ⟨.doneK, "done"⟩, ⟨.newline, "\\n"⟩,
   ⟨.ret, "ret"⟩, ⟨.ident, "s"⟩, ⟨.newline, "\\n"⟩, ⟨.eofK, ""⟩]

/-- The count-reassignment function. -/
def funcD9 : Func :=
  ⟨"f", [],
   [.letS "k" (.num 3),
    .letS "s" (.num 0),
    .repeatS (.var "k") none
      [.letS "k" (.num 10), .inc "s" (some (.num 1))],
    .ret 0 (.var "s")]⟩

/-- The count-reassignment program. -/
def progD9 : Program := ⟨[], [funcD9]⟩

/-- The emitted lines: `k` is loaded once into `%t2` before the loop;
the loop-head comparison `%t4 = fcmp ole %t3, %t2` reuses `%t2`. -/
def linesD9 : List Line :=
  [.label .entry 0,
   .constF 0 3, .alloca 0, .storeLocal 0 0,
   .constF 1 0, .alloca 1, .storeLocal 1 1,
   .loadLocal 2 0, .alloca 2, .storeConst 1 2,
   .brLabel .loopStart 0, .label .loopStart 0,
   .loadLocal 3 2, .fcmp .ole 4 3 2,
   .condbr 4 .loopBody 1 .loopEnd 2, .label .loopBody 1,
   .constF 5 10, .storeLocal 5 0,
   .loadLocal 6 1, .constF 7 1, .arith .add 8 6 7, .storeLocal 8 1,
   .loadLocal 9 2, .faddConst 10 9 1, .storeLocal 10 2,
   .brLabel .loopStart 0, .label .loopEnd 2,
   .loadLocal 11 1, .retReg 11]

theorem lex_D9 : lex srcD9 = some toksD9 := by decide

set_option maxHeartbeats 2000000 in
theorem parse_D9 : parserParse 961 toksD9 = some progD9 := by
  simp [parserParse, parseTop, parseFuncDef, parseFuncBody, parseParams,
    parseParams.go, parseStmt, parseStmtSeq, parseInlineStmt, parseExpr,
    parseOr, parseOrLoop, parseAnd, parseAndLoop, parseComparison,
    parseCmpLoop, parseAdditive, parseAddLoop, parseMultiplicative,
    parseMulLoop, parseUnary, parseCall, parseArgs, parsePrimary,
    PState.matchT, PState.check, PState.cur, PState.advance, PState.atEnd,
    PState.expect, PState.skipNewlines, PState.skipNewlines.go,
    PState.atEndOfLine, isEndOfExpr, isModuleToken, isNumberWord,
    isPositional, numberWordValue, positionalIndex, atofQ, eofTok,
    isTypeToken, parseTypeDef, parseTypeFields, toksD9, progD9, funcD9]

theorem frontend_D9 : frontend srcD9 = some progD9 := by
  have h : toksD9.length = 29 := by decide
  simp [frontend, lex_D9, h, parse_D9]

set_option maxHeartbeats 2000000 in
theorem codegen_D9 :
    codegenFunc CG.init funcD9 =
      (⟨12, 3, 0, [], [some "k", some "s", none], []⟩, linesD9) := by
  simp [codegenFunc, codegenStmts, codegenStmt, codegenExpr, codegenArgs,
    codegenOptStmt, CG.nextTemp, CG.nextLabel, CG.addError, CG.init,
    findLocal, findParam, stmtIsRetO, Stmt.isRet, funcD9, linesD9,
    fopOfOp, cmpOfOp, mathIntrinsic1, mathIntrinsic2]

/-- Despite the body setting `k` to 10, the loop performed exactly 3
iterations: `s` finishes at 3. -/
theorem run_D9 : runLines linesD9 [] 300 0 [] [] = some 3 := by decide

/-- A program with a second return after the first: the statements after
the first `ret` are emitted into the same basic block. -/
def srcR2 : String := "fn f\nret zero\nret zero\n"

/-- Its token list. -/
def toksR2 : List Token :=
  [⟨.fn, "fn"⟩, ⟨.ident, "f"⟩, ⟨.newline, "\\n"⟩,
   ⟨.ret, "ret"⟩, ⟨.zeroW, "zero"⟩, ⟨.newline, "\\n"⟩,
   ⟨.ret, "ret"⟩, ⟨.zeroW, "zero"⟩, ⟨.newline, "\\n"⟩, ⟨.eofK, ""⟩]

/-- Its function. -/
def funcR2 : Func := ⟨"f", [], [.ret 0 (.num 0), .ret 0 (.num 0)]⟩

/-- Its program. -/
def progR2 : Program := ⟨[], [funcR2]⟩

/-- Its emitted lines: the entry block holds two `ret` instructions
with an instruction between them. -/
def linesR2 : List Line :=
  [.label .entry 0, .constF 0 0, .retReg 0, .constF 1 0, .retReg 1]

theorem lex_R2 : lex srcR2 = some toksR2 := by decide

set_option maxHeartbeats 2000000 in
theorem parse_R2 : parserParse 144 toksR2 = some progR2 := by
  simp [parserParse, parseTop, parseFuncDef, parseFuncBody, parseParams,
    parseParams.go, parseStmt, parseStmtSeq, parseInlineStmt, parseExpr,
    parseOr, parseOrLoop, parseAnd, parseAndLoop, parseComparison,
    parseCmpLoop, parseAdditive, parseAddLoop, parseMultiplicative,
    parseMulLoop, parseUnary, parseCall, parseArgs, parsePrimary,
    PState.matchT, PState.check, PState.cur, PState.advance, PState.atEnd,
    PState.expect, PState.skipNewlines, PState.skipNewlines.go,
    PState.atEndOfLine, isEndOfExpr, isModuleToken, isNumberWord,
    isPositional, numberWordValue, positionalIndex, atofQ, eofTok,
    isTypeToken, parseTypeDef, parseTypeFields, toksR2, progR2, funcR2]

theorem frontend_R2 : frontend srcR2 = some progR2 := by
  have h : toksR2.length = 10 := by decide
  simp [frontend, lex_R2, h, parse_R2]

set_option maxHeartbeats 2000000 in
theorem codegen_R2 :
    codegenFunc CG.init funcR2 = (⟨2, 0, 0, [], [], []⟩, linesR2) := by
  simp [codegenFunc, codegenStmts, codegenStmt, codegenExpr, codegenArgs,
    codegenOptStmt, CG.nextTemp, CG.nextLabel, CG.addError, CG.init,
    findLocal, findParam, stmtIsRetO, Stmt.isRet, funcR2, linesR2,
    fopOfOp, cmpOfOp, mathIntrinsic1, mathIntrinsic2]

/-- A program whose return references an unknown variable. -/
def srcU1 : String := "fn f\nret x\n"

/-- Its token list. -/
def toksU1 : List Token :=
  [⟨.fn, "fn"⟩, ⟨.ident, "f"⟩, ⟨.newline, "\\n"⟩,
   ⟨.ret, "ret"⟩, ⟨.ident, "x"⟩, ⟨.newline, "\\n"⟩, ⟨.eofK, ""⟩]

/-- Its function. -/
def funcU1 : Func := ⟨"f", [], [.ret 0 (.var "x")]⟩

/-- Its program. -/
def progU1 : Program := ⟨[], [funcU1]⟩

theorem lex_U1 : lex srcU1 = some toksU1 := by decide

set_option maxHeartbeats 2000000 in
theorem parse_U1 : parserParse 81 toksU1 = some progU1 := by
  simp [parserParse, parseTop, parseFuncDef, parseFuncBody, parseParams,
    parseParams.go, parseStmt, parseStmtSeq, parseInlineStmt, parseExpr,
    parseOr, parseOrLoop, parseAnd, parseAndLoop, parseComparison,
    parseCmpLoop, parseAdditive, parseAddLoop, parseMultiplicative,
    parseMulLoop, parseUnary, parseCall, parseArgs, parsePrimary,
    PState.matchT, PState.check, PState.cur, PState.advance, PState.atEnd,
    PState.expect, PState.skipNewlines, PState.skipNewlines.go,
    PState.atEndOfLine, isEndOfExpr, isModuleToken, isNumberWord,
    isPositional, numberWordValue, positionalIndex, atofQ, eofTok,
    isTypeToken, parseTypeDef, parseTypeFields, toksU1, progU1, funcU1]

theorem frontend_U1 : frontend srcU1 = some progU1 := by
  have h : toksU1.length = 7 := by decide
  simp [frontend, lex_U1, h, parse_U1]

set_option maxHeartbeats 2000000 in
/-- Emitting the unknown-variable program: the diagnostic is recorded,
the emitted function is just the `entry:` label — no `ret` at all. -/
theorem codegen_U1 :
    codegenFunc CG.init funcU1 =
      (⟨0, 0, 0, [], [], ["Error: Unknown variable 'x'"]⟩,
       [.label .entry 0]) := by
  simp [codegenFunc, codegenStmts, codegenStmt, codegenExpr, codegenArgs,
    codegenOptStmt, CG.nextTemp, CG.nextLabel, CG.addError, CG.init,
    findLocal, findParam, stmtIsRetO, Stmt.isRet, funcU1,
    fopOfOp, cmpOfOp, mathIntrinsic1, mathIntrinsic2]

/-! ## Claim C1 -/

/-- C1 (code bug): for the program `fn f\nret x\n`, whose return
references a name that is neither a parameter nor let-bound, emission
records the unknown-variable diagnostic — yet `codegen_llvm` still
returns success, `cmd_compile` exits 0, and the emitted function body
violates the block discipline (the entry block has no terminator).  The
claim (and spec) say compilation fails at emission with exit status 1;
the code drops `codegen_expr`'s failure indicator at statement level. -/
theorem claim_C1 :
    frontend srcU1 = some progU1 ∧
    cmdCompileExit srcU1 = 0 ∧
    codegenErrors progU1 = ["Error: Unknown variable 'x'"] ∧
    wellTerminated (codegenFunc CG.init funcU1).2 = false := by
  refine ⟨frontend_U1, ?_, ?_, ?_⟩
  · simp [cmdCompileExit, frontend_U1, codegenLLVM]
  · simp [codegenErrors, codegenLLVM, progU1, codegen_U1]
  · rw [codegen_U1]
    decide

/-! ## Claim C3 -/

/-- C3 counterexample: for S4 the code emits the `end2:` label after the
else arm (codegen.c always emits the end label for if-else), so the
claim's "no end label for fall-through after the if is generated" is
false at this very input. -/
theorem claim_C3_counterexample :
    frontend srcS4 = some progS4 ∧
    (codegenFunc CG.init funcS4).2 = linesS4 ∧
    Line.label .endL 2 ∈ linesS4 := by
  refine ⟨frontend_S4, ?_, ?_⟩
  · rw [codegen_S4]
  · decide

/-- C3 amended: for the S4 source, the emitted function branches on the
condition; the then arm and the else arm each terminate in a `ret` and
neither emits a branch to the end label — but the `end2:` label IS
generated after the else arm, and the synthetic `ret double 0.0` lands
in it, keeping every block terminated. -/
theorem claim_C3 :
    frontend srcS4 = some progS4 ∧
    codegenFunc CG.init funcS4 = (⟨7, 3, 0, ["x"], [], []⟩, linesS4) ∧
    Line.brLabel .endL 2 ∉ linesS4 ∧
    Line.label .endL 2 ∈ linesS4 ∧
    wellTerminated linesS4 = true := by
  refine ⟨frontend_S4, codegen_S4, ?_, ?_, ?_⟩ <;> decide

/-! ## Claim C4 -/

/-- C4 counterexample: when the external `clang` step fails (all prior
steps succeeding), `cmd_run` exits 1 without removing any of the four
temporary files, refuting "all four temporary files are removed on
every exit path". -/
theorem claim_C4_counterexample :
    cmdRun ⟨true, true, true, true, true, true, false, 0⟩ = (1, []) ∧
    runTempFiles ≠ [] := by
  constructor
  · simp [cmdRun]
  · decide

/-- C4 amended: the four temporary files are removed exactly on the
path that reaches execution of the compiled binary, i.e. when every
preceding step succeeds — and then regardless of the binary's exit
status, which `cmd_run` propagates; on every earlier failure path
nothing is removed. -/
theorem claim_C4 (env : RunEnv) :
    (cmdRun env).2 =
      (if env.readOk ∧ env.lexOk ∧ env.parseOk ∧ env.codegenOpenOk ∧
          env.mainOpenOk ∧ env.catOk ∧ env.clangOk
       then runTempFiles else []) ∧
    ((cmdRun env).2 = runTempFiles → (cmdRun env).1 = env.binStatus) := by
  obtain ⟨r, l, pk, co, mo, ca, cl, b⟩ := env
  cases r <;> cases l <;> cases pk <;> cases co <;> cases mo <;>
    cases ca <;> cases cl <;> simp [cmdRun, runTempFiles]

/-! ## Claim C5 -/

/-- C5 counterexample: the tokens `str` and `err` do begin
module-qualified calls — `str foo x` and `err foo x` both parse as
module calls (parser.c's `is_module_token` accepts `TOK_STR` and
`TOK_ERR` besides the five module tokens), refuting the claimed closed
five-name set. -/
theorem claim_C5_counterexample :
    parseExpr 20
        ⟨[⟨.strK, "str"⟩, ⟨.ident, "foo"⟩, ⟨.ident, "x"⟩,
          ⟨.newline, "\\n"⟩, ⟨.eofK, ""⟩], 0⟩ =
      some (.call (some "str") "foo" [.var "x"],
        ⟨[⟨.strK, "str"⟩, ⟨.ident, "foo"⟩, ⟨.ident, "x"⟩,
          ⟨.newline, "\\n"⟩, ⟨.eofK, ""⟩], 3⟩) ∧
    parseExpr 20
        ⟨[⟨.errK, "err"⟩, ⟨.ident, "foo"⟩, ⟨.ident, "x"⟩,
          ⟨.newline, "\\n"⟩, ⟨.eofK, ""⟩], 0⟩ =
      some (.call (some "err") "foo" [.var "x"],
        ⟨[⟨.errK, "err"⟩, ⟨.ident, "foo"⟩, ⟨.ident, "x"⟩,
          ⟨.newline, "\\n"⟩, ⟨.eofK, ""⟩], 3⟩) := by
  constructor <;>
    simp [parseExpr, parseOr, parseOrLoop, parseAnd, parseAndLoop,
      parseComparison, parseCmpLoop, parseAdditive, parseAddLoop,
      parseMultiplicative, parseMulLoop, parseUnary, parseCall,
      parseArgs, parsePrimary, PState.matchT, PState.check, PState.cur,
      PState.advance, PState.atEnd, PState.expect, PState.atEndOfLine,
      isEndOfExpr, isModuleToken, isNumberWord, isPositional, eofTok]

/-- C5 amended: the parser recognises a module-qualified call
`MODULE NAME ARG*` exactly when the leading token kind is one of the
seven kinds math, str, list, time, http, json, err; for any such
leading token followed by an identifier, a module call with that
module lexeme is parsed. -/
theorem claim_C5 :
    (∀ t : TokType,
      isModuleToken t = true ↔
        (t = .math ∨ t = .strK ∨ t = .listK ∨ t = .timeK ∨
         t = .http ∨ t = .json ∨ t = .errK)) ∧
    (∀ (tk : TokType) (v f : String), isModuleToken tk = true →
      parseExpr 20 ⟨[⟨tk, v⟩, ⟨.ident, f⟩, ⟨.newline, "\\n"⟩,
                     ⟨.eofK, ""⟩], 0⟩ =
        some (.call (some v) f [],
          ⟨[⟨tk, v⟩, ⟨.ident, f⟩, ⟨.newline, "\\n"⟩, ⟨.eofK, ""⟩], 2⟩)) := by
  constructor
  · intro t
    cases t <;> simp [isModuleToken]
  · intro tk v f hm
    cases tk <;> simp [isModuleToken] at hm <;>
      simp [parseExpr, parseOr, parseOrLoop, parseAnd, parseAndLoop,
        parseComparison, parseCmpLoop, parseAdditive, parseAddLoop,
        parseMultiplicative, parseMulLoop, parseUnary, parseCall,
        parseArgs, parsePrimary, PState.matchT, PState.check, PState.cur,
        PState.advance, PState.atEnd, PState.expect, PState.atEndOfLine,
        isEndOfExpr, isModuleToken, isNumberWord, isPositional, eofTok]

/-- Witness for C5's amended theorem at the token kind `str`. -/
theorem claim_C5_witness :
    parseExpr 20 ⟨[⟨.strK, "str"⟩, ⟨.ident, "g"⟩, ⟨.newline, "\\n"⟩,
                   ⟨.eofK, ""⟩], 0⟩ =
      some (.call (some "str") "g" [],
        ⟨[⟨.strK, "str"⟩, ⟨.ident, "g"⟩, ⟨.newline, "\\n"⟩,
          ⟨.eofK, ""⟩], 2⟩) :=
  claim_C5.2 .strK "str" "g" (by decide)

/-! ## Claim C10 -/

/-- C10: `inc`/`dec` resolve their target only through `find_local`
(stack-slot locals); with no local of that name — even when a parameter
of that name exists — the unknown-variable diagnostic is recorded and
the statement emits nothing. -/
theorem claim_C10 (cg : CG) (name : String) (amt : Option Expr) (i : Nat)
    (hloc : findLocal cg.locals name = none)
    (_hpar : findParam cg.params name = some i) :
    codegenStmt cg (.inc name amt) =
      ({ cg with errors :=
          cg.errors ++ ["Error: Unknown variable '" ++ name ++ "' in inc"] },
       []) ∧
    codegenStmt cg (.dec name amt) =
      ({ cg with errors :=
          cg.errors ++ ["Error: Unknown variable '" ++ name ++ "' in dec"] },
       []) := by
  constructor <;> simp [codegenStmt, hloc, CG.addError]

/-- Witness for C10: a generator whose single parameter `x` was never
let-bound. -/
theorem claim_C10_witness :
    codegenStmt ⟨0, 0, 0, ["x"], [], []⟩ (.inc "x" none) =
      (⟨0, 0, 0, ["x"], [], ["Error: Unknown variable 'x' in inc"]⟩,
       []) ∧
    codegenStmt ⟨0, 0, 0, ["x"], [], []⟩ (.dec "x" none) =
      (⟨0, 0, 0, ["x"], [], ["Error: Unknown variable 'x' in dec"]⟩,
       []) :=
  claim_C10 ⟨0, 0, 0, ["x"], [], []⟩ "x" none 0 (by decide) (by decide)

/-! ## Claim C6 -/

/-- Token sequence `A o1 B o2 C` followed by newline and EOF, with
identifier operands. -/
def opTriple (a : String) (o1 : Token) (b : String) (o2 : Token)
    (c : String) : List Token :=
  [⟨.ident, a⟩, o1, ⟨.ident, b⟩, o2, ⟨.ident, c⟩,
   ⟨.newline, "\\n"⟩, ⟨.eofK, ""⟩]

set_option maxHeartbeats 8000000 in
/-- C6: for all identifier operands (not the boolean words), `A plus B
times C` parses as `A plus (B times C)` and `A times B plus C` as
`(A times B) plus C`; and within each precedence level — multiplicative,
additive, comparison, `and`, `or` — consecutive operators associate to
the left. -/
theorem claim_C6 (a b c : String)
    (ha1 : a ≠ "true") (ha2 : a ≠ "false")
    (hb1 : b ≠ "true") (hb2 : b ≠ "false")
    (hc1 : c ≠ "true") (hc2 : c ≠ "false") :
    (parseExpr 20 ⟨opTriple a ⟨.plus, "plus"⟩ b ⟨.times, "times"⟩ c, 0⟩ =
      some (.binop "plus" (.var a) (.binop "times" (.var b) (.var c)),
        ⟨opTriple a ⟨.plus, "plus"⟩ b ⟨.times, "times"⟩ c, 5⟩)) ∧
    (parseExpr 20 ⟨opTriple a ⟨.times, "times"⟩ b ⟨.plus, "plus"⟩ c, 0⟩ =
      some (.binop "plus" (.binop "times" (.var a) (.var b)) (.var c),
        ⟨opTriple a ⟨.times, "times"⟩ b ⟨.plus, "plus"⟩ c, 5⟩)) ∧
    (∀ (t1 t2 : TokType) (v1 v2 : String),
      (t1 = .times ∨ t1 = .over ∨ t1 = .modK) →
      (t2 = .times ∨ t2 = .over ∨ t2 = .modK) →
      parseExpr 20 ⟨opTriple a ⟨t1, v1⟩ b ⟨t2, v2⟩ c, 0⟩ =
        some (.binop v2 (.binop v1 (.var a) (.var b)) (.var c),
          ⟨opTriple a ⟨t1, v1⟩ b ⟨t2, v2⟩ c, 5⟩)) ∧
    (∀ (t1 t2 : TokType) (v1 v2 : String),
      (t1 = .plus ∨ t1 = .minus) → (t2 = .plus ∨ t2 = .minus) →
      parseExpr 20 ⟨opTriple a ⟨t1, v1⟩ b ⟨t2, v2⟩ c, 0⟩ =
        some (.binop v2 (.binop v1 (.var a) (.var b)) (.var c),
          ⟨opTriple a ⟨t1, v1⟩ b ⟨t2, v2⟩ c, 5⟩)) ∧
    (∀ (t1 t2 : TokType) (v1 v2 : String),
      (t1 = .eqK ∨ t1 = .neqK ∨ t1 = .ltK ∨ t1 = .gtK ∨ t1 = .lteK ∨
        t1 = .gteK) →
      (t2 = .eqK ∨ t2 = .neqK ∨ t2 = .ltK ∨ t2 = .gtK ∨ t2 = .lteK ∨
        t2 = .gteK) →
      parseExpr 20 ⟨opTriple a ⟨t1, v1⟩ b ⟨t2, v2⟩ c, 0⟩ =
        some (.binop v2 (.binop v1 (.var a) (.var b)) (.var c),
          ⟨opTriple a ⟨t1, v1⟩ b ⟨t2, v2⟩ c, 5⟩)) ∧
    (∀ v1 v2 : String,
      parseExpr 20 ⟨opTriple a ⟨.andK, v1⟩ b ⟨.andK, v2⟩ c, 0⟩ =
        some (.binop "and" (.binop "and" (.var a) (.var b)) (.var c),
          ⟨opTriple a ⟨.andK, v1⟩ b ⟨.andK, v2⟩ c, 5⟩)) ∧
    (∀ v1 v2 : String,
      parseExpr 20 ⟨opTriple a ⟨.orK, v1⟩ b ⟨.orK, v2⟩ c, 0⟩ =
        some (.binop "or" (.binop "or" (.var a) (.var b)) (.var c),
          ⟨opTriple a ⟨.orK, v1⟩ b ⟨.orK, v2⟩ c, 5⟩)) := by
  refine ⟨?_, ?_, ?_, ?_, ?_, ?_, ?_⟩
  case _ =>
    simp [opTriple, parseExpr, parseOr, parseOrLoop, parseAnd,
      parseAndLoop, parseComparison, parseCmpLoop, parseAdditive,
      parseAddLoop, parseMultiplicative, parseMulLoop, parseUnary,
      parseCall, parseArgs, parsePrimary, PState.matchT, PState.check,
      PState.cur, PState.advance, PState.atEnd, PState.expect,
      PState.atEndOfLine, isEndOfExpr, isModuleToken, isNumberWord,
      isPositional, eofTok, ha1, ha2, hb1, hb2, hc1, hc2]
  case _ =>
    simp [opTriple, parseExpr, parseOr, parseOrLoop, parseAnd,
      parseAndLoop, parseComparison, parseCmpLoop, parseAdditive,
      parseAddLoop, parseMultiplicative, parseMulLoop, parseUnary,
      parseCall, parseArgs, parsePrimary, PState.matchT, PState.check,
      PState.cur, PState.advance, PState.atEnd, PState.expect,
      PState.atEndOfLine, isEndOfExpr, isModuleToken, isNumberWord,
      isPositional, eofTok, ha1, ha2, hb1, hb2, hc1, hc2]
  case _ =>
    rintro t1 t2 v1 v2 (rfl | rfl | rfl) (rfl | rfl | rfl) <;>
      simp [opTriple, parseExpr, parseOr, parseOrLoop, parseAnd,
        parseAndLoop, parseComparison, parseCmpLoop, parseAdditive,
        parseAddLoop, parseMultiplicative, parseMulLoop, parseUnary,
        parseCall, parseArgs, parsePrimary, PState.matchT, PState.check,
        PState.cur, PState.advance, PState.atEnd, PState.expect,
        PState.atEndOfLine, isEndOfExpr, isModuleToken, isNumberWord,
        isPositional, eofTok, ha1, ha2, hb1, hb2, hc1, hc2]
  case _ =>
    rintro t1 t2 v1 v2 (rfl | rfl) (rfl | rfl) <;>
      simp [opTriple, parseExpr, parseOr, parseOrLoop, parseAnd,
        parseAndLoop, parseComparison, parseCmpLoop, parseAdditive,
        parseAddLoop, parseMultiplicative, parseMulLoop, parseUnary,
        parseCall, parseArgs, parsePrimary, PState.matchT, PState.check,
        PState.cur, PState.advance, PState.atEnd, PState.expect,
        PState.atEndOfLine, isEndOfExpr, isModuleToken, isNumberWord,
        isPositional, eofTok, ha1, ha2, hb1, hb2, hc1, hc2]
  case _ =>
    rintro t1 t2 v1 v2 (rfl | rfl | rfl | rfl | rfl | rfl)
      (rfl | rfl | rfl | rfl | rfl | rfl) <;>
      simp [opTriple, parseExpr, parseOr, parseOrLoop, parseAnd,
        parseAndLoop, parseComparison, parseCmpLoop, parseAdditive,
        parseAddLoop, parseMultiplicative, parseMulLoop, parseUnary,
        parseCall, parseArgs, parsePrimary, PState.matchT, PState.check,
        PState.cur, PState.advance, PState.atEnd, PState.expect,
        PState.atEndOfLine, isEndOfExpr, isModuleToken, isNumberWord,
        isPositional, eofTok, ha1, ha2, hb1, hb2, hc1, hc2]
  case _ =>
    intro v1 v2
    simp [opTriple, parseExpr, parseOr, parseOrLoop, parseAnd,
      parseAndLoop, parseComparison, parseCmpLoop, parseAdditive,
      parseAddLoop, parseMultiplicative, parseMulLoop, parseUnary,
      parseCall, parseArgs, parsePrimary, PState.matchT, PState.check,
      PState.cur, PState.advance, PState.atEnd, PState.expect,
      PState.atEndOfLine, isEndOfExpr, isModuleToken, isNumberWord,
      isPositional, eofTok, ha1, ha2, hb1, hb2, hc1, hc2]
  case _ =>
    intro v1 v2
    simp [opTriple, parseExpr, parseOr, parseOrLoop, parseAnd,
      parseAndLoop, parseComparison, parseCmpLoop, parseAdditive,
      parseAddLoop, parseMultiplicative, parseMulLoop, parseUnary,
      parseCall, parseArgs, parsePrimary, PState.matchT, PState.check,
      PState.cur, PState.advance, PState.atEnd, PState.expect,
      PState.atEndOfLine, isEndOfExpr, isModuleToken, isNumberWord,
      isPositional, eofTok, ha1, ha2, hb1, hb2, hc1, hc2]

/-- Witness for C6 at the identifiers `a`, `b`, `c` (first law). -/
theorem claim_C6_witness :
    parseExpr 20
        ⟨opTriple "a" ⟨.plus, "plus"⟩ "b" ⟨.times, "times"⟩ "c", 0⟩ =
      some (.binop "plus" (.var "a")
              (.binop "times" (.var "b") (.var "c")),
        ⟨opTriple "a" ⟨.plus, "plus"⟩ "b" ⟨.times, "times"⟩ "c", 5⟩) :=
  (claim_C6 "a" "b" "c" (by decide) (by decide) (by decide) (by decide)
    (by decide) (by decide)).1

/-! ## Claim C8 -/

/-- C8 counterexample: `inc` and `dec` are statement-level keywords but
not in `is_end_of_expr`'s boundary list, so argument parsing does not
stop at them — it fails.  With `inc` after call arguments on one line,
the statement (and the whole program) is a parse error rather than the
two-statement parse the claimed boundary rule implies. -/
theorem claim_C8_counterexample :
    parseStmt 30
      ⟨[⟨.callK, "call"⟩, ⟨.ident, "f"⟩, ⟨.ident, "a"⟩,
        ⟨.incK, "inc"⟩, ⟨.ident, "b"⟩, ⟨.newline, "\\n"⟩,
        ⟨.eofK, ""⟩], 0⟩ = none ∧
    frontend "fn m\ncall f a inc b\n" = none := by
  constructor
  · simp [parseStmt, parseStmtSeq, parseInlineStmt, parseExpr, parseOr,
      parseOrLoop, parseAnd, parseAndLoop, parseComparison, parseCmpLoop,
      parseAdditive, parseAddLoop, parseMultiplicative, parseMulLoop,
      parseUnary, parseCall, parseArgs, parsePrimary, PState.matchT,
      PState.check, PState.cur, PState.advance, PState.atEnd,
      PState.expect, PState.skipNewlines, PState.skipNewlines.go,
      PState.atEndOfLine, isEndOfExpr, isModuleToken, isNumberWord,
      isPositional, eofTok]
  · have hlex : lex "fn m\ncall f a inc b\n" =
        some [⟨.fn, "fn"⟩, ⟨.ident, "m"⟩, ⟨.newline, "\\n"⟩,
              ⟨.callK, "call"⟩, ⟨.ident, "f"⟩, ⟨.ident, "a"⟩,
              ⟨.incK, "inc"⟩, ⟨.ident, "b"⟩, ⟨.newline, "\\n"⟩,
              ⟨.eofK, ""⟩] := by decide
    simp [frontend, hlex, parserParse, parseTop, parseFuncDef,
      parseFuncBody, parseParams, parseParams.go, parseStmt, parseStmtSeq,
      parseInlineStmt, parseExpr, parseOr, parseOrLoop, parseAnd,
      parseAndLoop, parseComparison, parseCmpLoop, parseAdditive,
      parseAddLoop, parseMultiplicative, parseMulLoop, parseUnary,
      parseCall, parseArgs, parsePrimary, PState.matchT, PState.check,
      PState.cur, PState.advance, PState.atEnd, PState.expect,
      PState.skipNewlines, PState.skipNewlines.go, PState.atEndOfLine,
      isEndOfExpr, isModuleToken, isNumberWord, isPositional, eofTok,
      isTypeToken, parseTypeDef, parseTypeFields]

set_option maxHeartbeats 8000000 in
/-- C8 amended: call-argument parsing consumes unary-level expressions
and stops exactly at the tokens `is_end_of_expr` lists — newline, end
of input, the binary operators, and the keywords ret, let, if, else,
call, out, done, repeat, times, as, while; the statement keywords `inc`
and `dec` are NOT boundaries (a following `inc`/`dec` is a parse error
instead).  Consequently `call f a plus b` parses as
`(call f a) plus b`, never as `call f (a plus b)`. -/
theorem claim_C8 :
    (∀ (tk : TokType) (v : String) (rest : List Token),
      isEndOfExpr ⟨⟨tk, v⟩ :: rest, 0⟩ = true ↔
        (tk = .newline ∨ tk = .eofK ∨ tk = .plus ∨ tk = .minus ∨
         tk = .times ∨ tk = .over ∨ tk = .modK ∨ tk = .eqK ∨
         tk = .neqK ∨ tk = .ltK ∨ tk = .gtK ∨ tk = .lteK ∨
         tk = .gteK ∨ tk = .andK ∨ tk = .orK ∨ tk = .ret ∨
         tk = .letK ∨ tk = .ifK ∨ tk = .elseK ∨ tk = .callK ∨
         tk = .outK ∨ tk = .doneK ∨ tk = .repeatK ∨ tk = .asK ∨
         tk = .whileK)) ∧
    (isEndOfExpr ⟨[⟨.incK, "inc"⟩], 0⟩ = false ∧
     isEndOfExpr ⟨[⟨.decK, "dec"⟩], 0⟩ = false) ∧
    (∀ (f a b : String),
      a ≠ "true" → a ≠ "false" → b ≠ "true" → b ≠ "false" →
      parseExpr 30
        ⟨[⟨.callK, "call"⟩, ⟨.ident, f⟩, ⟨.ident, a⟩,
          ⟨.plus, "plus"⟩, ⟨.ident, b⟩, ⟨.newline, "\\n"⟩,
          ⟨.eofK, ""⟩], 0⟩ =
        some (.binop "plus" (.call none f [.var a]) (.var b),
          ⟨[⟨.callK, "call"⟩, ⟨.ident, f⟩, ⟨.ident, a⟩,
            ⟨.plus, "plus"⟩, ⟨.ident, b⟩, ⟨.newline, "\\n"⟩,
            ⟨.eofK, ""⟩], 5⟩)) := by
  refine ⟨?_, ⟨by decide, by decide⟩, ?_⟩
  · intro tk v rest
    cases tk <;>
      simp [isEndOfExpr, PState.atEndOfLine, PState.check, PState.cur]
  · intro f a b ha1 ha2 hb1 hb2
    simp [parseExpr, parseOr, parseOrLoop, parseAnd, parseAndLoop,
      parseComparison, parseCmpLoop, parseAdditive, parseAddLoop,
      parseMultiplicative, parseMulLoop, parseUnary, parseCall,
      parseArgs, parsePrimary, PState.matchT, PState.check, PState.cur,
      PState.advance, PState.atEnd, PState.expect, PState.atEndOfLine,
      isEndOfExpr, isModuleToken, isNumberWord, isPositional, eofTok,
      ha1, ha2, hb1, hb2]

/-- Witness for C8's amended theorem at `call f a plus b`. -/
theorem claim_C8_witness :
    parseExpr 30
      ⟨[⟨.callK, "call"⟩, ⟨.ident, "f"⟩, ⟨.ident, "a"⟩,
        ⟨.plus, "plus"⟩, ⟨.ident, "b"⟩, ⟨.newline, "\\n"⟩,
        ⟨.eofK, ""⟩], 0⟩ =
      some (.binop "plus" (.call none "f" [.var "a"]) (.var "b"),
        ⟨[⟨.callK, "call"⟩, ⟨.ident, "f"⟩, ⟨.ident, "a"⟩,
          ⟨.plus, "plus"⟩, ⟨.ident, "b"⟩, ⟨.newline, "\\n"⟩,
          ⟨.eofK, ""⟩], 5⟩) :=
  claim_C8.2.2 "f" "a" "b" (by decide) (by decide) (by decide) (by decide)

/-! ## Claims C7 and C9: the repeat lowering -/

/-- The exact shape `codegen_stmt` emits for a `repeat` statement whose
count expression lowers successfully: the count's lines first, then the
counter slot allocation initialised to 1.0 (the slot is bound to the
`as` name when present, anonymous otherwise), the jump to and label of
the loop head, which loads the counter and compares it `ole` against
the count's already-computed register, branching to body or end; after
the body the counter is re-loaded, incremented by 1.0, stored back, and
control returns to the loop head. -/
theorem codegenRepeat_eq (cg : CG) (count : Expr) (varName : Option String)
    (body : List Stmt) (cr : Int) (cg1 : CG) (cl : List Line)
    (cg8 : CG) (bl : List Line)
    (heq : codegenExpr cg count = (cr, cg1, cl)) (hge : 0 ≤ cr)
    (hbody : codegenStmts
      { cg1 with label := cg1.label + 3,
                 locals := cg1.locals ++ [varName],
                 temp := cg1.temp + 2 } body = (cg8, bl)) :
    codegenStmt cg (.repeatS count varName body) =
      ({ cg8 with temp := cg8.temp + 2 },
        cl ++ [.alloca cg1.locals.length, .storeConst 1 cg1.locals.length,
               .brLabel .loopStart cg1.label, .label .loopStart cg1.label,
               .loadLocal (cg1.temp : Int) cg1.locals.length,
               .fcmp .ole ((cg1.temp : Int) + 1) (cg1.temp : Int) cr,
               .condbr ((cg1.temp : Int) + 1) .loopBody (cg1.label + 1)
                 .loopEnd (cg1.label + 2),
               .label .loopBody (cg1.label + 1)] ++
        bl ++
        [.loadLocal (cg8.temp : Int) cg1.locals.length,
         .faddConst ((cg8.temp : Int) + 1) (cg8.temp : Int) 1,
         .storeLocal ((cg8.temp : Int) + 1) cg1.locals.length,
         .brLabel .loopStart cg1.label, .label .loopEnd (cg1.label + 2)]) := by
  have hnlt : ¬(cr < 0) := not_lt.mpr hge
  rcases varName with _ | v <;>
    simp [codegenStmt, heq, hnlt, CG.nextTemp, CG.nextLabel, hbody]

/-- C7: the repeat lowering allocates a counter slot initialised to 1.0,
binds an `as` name to that same slot, tests `counter <= count` at the
loop head (branching to body or end) and after the body loads, adds 1.0,
stores and jumps back — and consequently S3 computes the triangular
sum: with first argument 5.0 the emitted code returns 15. -/
theorem claim_C7 :
    (∀ (cg : CG) (count : Expr) (varName : Option String)
       (body : List Stmt) (cr : Int) (cg1 : CG) (cl : List Line)
       (cg8 : CG) (bl : List Line),
      codegenExpr cg count = (cr, cg1, cl) → 0 ≤ cr →
      codegenStmts
        { cg1 with label := cg1.label + 3,
                   locals := cg1.locals ++ [varName],
                   temp := cg1.temp + 2 } body = (cg8, bl) →
      codegenStmt cg (.repeatS count varName body) =
        ({ cg8 with temp := cg8.temp + 2 },
          cl ++ [.alloca cg1.locals.length,
                 .storeConst 1 cg1.locals.length,
                 .brLabel .loopStart cg1.label, .label .loopStart cg1.label,
                 .loadLocal (cg1.temp : Int) cg1.locals.length,
                 .fcmp .ole ((cg1.temp : Int) + 1) (cg1.temp : Int) cr,
                 .condbr ((cg1.temp : Int) + 1) .loopBody (cg1.label + 1)
                   .loopEnd (cg1.label + 2),
                 .label .loopBody (cg1.label + 1)] ++
          bl ++
          [.loadLocal (cg8.temp : Int) cg1.locals.length,
           .faddConst ((cg8.temp : Int) + 1) (cg8.temp : Int) 1,
           .storeLocal ((cg8.temp : Int) + 1) cg1.locals.length,
           .brLabel .loopStart cg1.label,
           .label .loopEnd (cg1.label + 2)])) ∧
    frontend srcS3 = some progS3 ∧
    codegenFunc CG.init funcS3 =
      (⟨10, 3, 0, ["n"], [some "s", some "i"], []⟩, linesS3) ∧
    execFunc funcS3 [5] 300 = some 15 ∧
    QF.toRat 15 = 15 := by
  refine ⟨?_, frontend_S3, codegen_S3, ?_, ?_⟩
  · intro cg count varName body cr cg1 cl cg8 bl heq hge hbody
    exact codegenRepeat_eq cg count varName body cr cg1 cl cg8 bl
      heq hge hbody
  · show runLines (codegenFunc CG.init funcS3).2 [5] 300 0 [] [] = some 15
    rw [codegen_S3]
    exact run_S3
  · show QF.toRat ⟨15, 1⟩ = 15
    norm_num [QF.toRat]

/-- Witness for C7's template part at `repeat zero times` with empty
body and no `as` name. -/
theorem claim_C7_witness :
    codegenStmt ⟨0, 0, 0, [], [], []⟩ (.repeatS (.num 0) none []) =
      (⟨5, 3, 0, [], [none], []⟩,
       [.constF 0 0, .alloca 0, .storeConst 1 0, .brLabel .loopStart 0,
        .label .loopStart 0, .loadLocal 1 0, .fcmp .ole 2 1 0,
        .condbr 2 .loopBody 1 .loopEnd 2, .label .loopBody 1,
        .loadLocal 3 0, .faddConst 4 3 1, .storeLocal 4 0,
        .brLabel .loopStart 0, .label .loopEnd 2]) := by
  have h := claim_C7.1 ⟨0, 0, 0, [], [], []⟩ (.num 0) none [] 0
    ⟨1, 0, 0, [], [], []⟩ [.constF 0 0] ⟨3, 3, 0, [], [none], []⟩ []
    (by decide) (by decide) (by decide)
  simpa using h

/-- C9: the count expression is lowered once, all of its instructions
preceding the entry branch of the loop; the loop-head block consists
exactly of the counter load, a comparison that reuses the count's
pre-computed register, and the conditional branch.  Consequently, in
the demo program whose body rebinds the count variable `k` (3 at entry)
to 10, the loop still runs exactly 3 times: `s` finishes at 3. -/
theorem claim_C9 :
    (∀ (cg : CG) (count : Expr) (varName : Option String)
       (body : List Stmt) (cr : Int) (cg1 : CG) (cl : List Line),
      codegenExpr cg count = (cr, cg1, cl) → 0 ≤ cr →
      ∃ mid, (codegenStmt cg (.repeatS count varName body)).2 =
        cl ++ [.alloca cg1.locals.length,
               .storeConst 1 cg1.locals.length,
               .brLabel .loopStart cg1.label, .label .loopStart cg1.label,
               .loadLocal (cg1.temp : Int) cg1.locals.length,
               .fcmp .ole ((cg1.temp : Int) + 1) (cg1.temp : Int) cr,
               .condbr ((cg1.temp : Int) + 1) .loopBody (cg1.label + 1)
                 .loopEnd (cg1.label + 2),
               .label .loopBody (cg1.label + 1)] ++ mid) ∧
    frontend srcD9 = some progD9 ∧
    codegenFunc CG.init funcD9 =
      (⟨12, 3, 0, [], [some "k", some "s", none], []⟩, linesD9) ∧
    runLines linesD9 [] 300 0 [] [] = some 3 ∧
    QF.toRat 3 = 3 := by
  refine ⟨?_, frontend_D9, codegen_D9, run_D9, ?_⟩
  · intro cg count varName body cr cg1 cl heq hge
    rcases hres : codegenStmts
      { cg1 with label := cg1.label + 3,
                 locals := cg1.locals ++ [varName],
                 temp := cg1.temp + 2 } body with ⟨cg8, bl⟩
    have h := codegenRepeat_eq cg count varName body cr cg1 cl cg8 bl
      heq hge hres
    refine ⟨bl ++
      [.loadLocal (cg8.temp : Int) cg1.locals.length,
       .faddConst ((cg8.temp : Int) + 1) (cg8.temp : Int) 1,
       .storeLocal ((cg8.temp : Int) + 1) cg1.locals.length,
       .brLabel .loopStart cg1.label, .label .loopEnd (cg1.label + 2)], ?_⟩
    rw [h]
    simp
  · show QF.toRat ⟨3, 1⟩ = 3
    norm_num [QF.toRat]

/-- Witness for C9's template part at `repeat two times as j` with an
empty body. -/
theorem claim_C9_witness :
    ∃ mid,
      (codegenStmt ⟨0, 0, 0, [], [], []⟩
        (.repeatS (.num 2) (some "j") [])).2 =
      [Line.constF 0 2] ++
      [.alloca 0, .storeConst 1 0, .brLabel .loopStart 0,
       .label .loopStart 0, .loadLocal 1 0, .fcmp .ole 2 1 0,
       .condbr 2 .loopBody 1 .loopEnd 2, .label .loopBody 1] ++ mid := by
  have h := claim_C9.1 ⟨0, 0, 0, [], [], []⟩ (.num 2) (some "j") [] 0
    ⟨1, 0, 0, [], [], []⟩ [.constF 0 2] (by decide) (by decide)
  simpa using h

end Nerd
